import Mathlib

/-!
Shallow embedding of the classical-music catalog API (FastAPI + SQLAlchemy,
`app/models.py`, `app/schemas.py`, `app/routers/*.py`).

Tables are lists of rows and autoincrement ids are explicit counters carried
in the database state.  Each HTTP handler becomes a function from a database
state and a payload to `Except ApiError` of the new state and the response
data; raising `HTTPException` before `db.commit()` leaves the store unchanged
(the session is rolled back), which the `Except` error branch models.  Error
details that the code renders as f-strings are carried structurally: each
error constructor holds exactly the ids or values the message interpolates.

SQL `ORDER BY` on the deterministic key lists used by the routers is embedded
as a stable insertion sort by the corresponding boolean comparator; `CASE WHEN
x IS NULL THEN 1 ELSE 0 END` becomes an explicit null flag.  MySQL `LIKE`
`%s%` is embedded as case-insensitive substring containment.

Update payload schemas use `exclude_unset=True`; a payload field is `none`
when absent.  For columns that are `NOT NULL` in the schema (for example
`Recording.composition_id`) an explicitly-null payload value would only
produce a storage-constraint failure at commit; that degenerate shape is not
modelled, so those payload fields are a single `Option`.  Nullable columns
whose mention matters (for example `Composition.catalog_number`, whose mention
recomputes `sort_order`) keep the two-level `Option (Option _)` shape.
-/

namespace CatalogApi

/-- Row of the `composers` table (`app/models.py`, class `Composer`). -/
structure Composer where
  id : Nat
  full_name : String
  name : String
  birth_year : Option Int
  death_year : Option Int
  nationality : Option String
  image_url : Option String
deriving DecidableEq

/-- Row of the `compositions` table (`app/models.py`, class `Composition`). -/
structure Composition where
  id : Nat
  composer_id : Nat
  catalog_number : Option String
  sort_order : Option Int
  title : String
deriving DecidableEq

/-- Row of the `artists` table (`app/models.py`, class `Artist`). -/
structure Artist where
  id : Nat
  name : String
  birth_year : Option Int
  death_year : Option Int
  nationality : Option String
  instrument : Option String
deriving DecidableEq

/-- Row of the `recordings` table (`app/models.py`, class `Recording`). -/
structure Recording where
  id : Nat
  composition_id : Nat
  year : Option Int
deriving DecidableEq

/-- Row of the `recording_artists` association table (`app/models.py`). -/
structure RecordingArtist where
  recording_id : Nat
  artist_id : Nat
  artist_order : Nat
deriving DecidableEq

/-- Row of the `albums` table (`app/models.py`, class `Album`). -/
structure Album where
  id : Nat
  album_type : String
  discogs_url : Option String
  goclassic_url : Option String
  memo : Option String
deriving DecidableEq

/-- Row of the `album_recordings` association table (`app/models.py`). -/
structure AlbumRecording where
  album_id : Nat
  recording_id : Nat
  recording_order : Nat
deriving DecidableEq

/-- Row of the `album_images` table (`app/models.py`, class `AlbumImage`). -/
structure AlbumImage where
  id : Nat
  album_id : Nat
  image_url : String
  is_primary : Nat
deriving DecidableEq

/-- Row of the `album_custom_urls` table (`app/models.py`, class `AlbumCustomUrl`). -/
structure AlbumCustomUrl where
  id : Nat
  album_id : Nat
  url_name : String
  url : String
  url_order : Int
deriving DecidableEq

/-- The relational store: one list per table plus autoincrement counters for
the tables the modelled handlers insert into. -/
structure DB where
  composers : List Composer
  compositions : List Composition
  artists : List Artist
  recordings : List Recording
  recording_artists : List RecordingArtist
  albums : List Album
  album_recordings : List AlbumRecording
  album_images : List AlbumImage
  album_custom_urls : List AlbumCustomUrl
  next_composition_id : Nat
  next_recording_id : Nat
  next_album_id : Nat
  next_album_image_id : Nat
  next_album_custom_url_id : Nat
deriving DecidableEq

/-- Errors raised by the routers via `HTTPException`; each constructor carries
the data interpolated into the corresponding detail string. -/
inductive ApiError where
  /-- 404, detail names the missing composer id (create or update composition). -/
  | notFoundComposer (id : Nat)
  /-- 404, detail names the missing composition id (create or update recording). -/
  | notFoundComposition (id : Nat)
  /-- 404, detail enumerates the missing artist ids (Python set). -/
  | notFoundArtists (missing : Finset Nat)
  /-- 404, detail enumerates the missing recording ids (Python set). -/
  | notFoundRecordings (missing : Finset Nat)
  /-- 404 on a by-id lookup, update or delete of an absent entity. -/
  | notFoundEntity
  /-- 400, duplicate composition title within the same composer. -/
  | conflictTitle (title : String)
  /-- 400, duplicate catalog number within the same composer. -/
  | conflictCatalog (catalog : String)
deriving DecidableEq

/-- List of composer ids present in the store. -/
def composerIds (db : DB) : List Nat := db.composers.map (fun c => c.id)

/-- List of composition ids present in the store. -/
def compositionIds (db : DB) : List Nat := db.compositions.map (fun c => c.id)

/-- List of artist ids present in the store. -/
def artistIds (db : DB) : List Nat := db.artists.map (fun a => a.id)

/-- List of recording ids present in the store. -/
def recordingIds (db : DB) : List Nat := db.recordings.map (fun r => r.id)

/-- List of album ids present in the store. -/
def albumIds (db : DB) : List Nat := db.albums.map (fun a => a.id)

/-! ### Sort-key extraction (`app/routers/compositions.py`, `extract_sort_order`) -/

/-- The first maximal run of decimal digits in a character list, embedding
Python `re.search` for one-or-more digits: skip characters until the first
digit, then take the maximal digit run from there. -/
def firstDigitRun : List Char → Option (List Char)
  | [] => none
  | c :: rest =>
    if c.isDigit then some (c :: rest.takeWhile (fun d => d.isDigit))
    else firstDigitRun rest

/-- Python `int` on a run of decimal digits (most significant first). -/
def digitsToNat (ds : List Char) : Nat :=
  ds.foldl (fun n c => 10 * n + (c.toNat - 48)) 0

/-- `extract_sort_order` from `app/routers/compositions.py`.  A falsy input
(absent or empty string) yields no key; otherwise the first digit run is
parsed as a non-negative integer.  The guarded `int` call cannot fail on a
digit-only group, so the `except ValueError` branch is unreachable and the
parse is embedded directly. -/
def extract_sort_order (catalog_number : Option String) : Option Int :=
  match catalog_number with
  | none => none
  | some s =>
    if s.data = [] then none
    else
      match firstDigitRun s.data with
      | some run => some (Int.ofNat (digitsToNat run))
      | none => none

/-! ### String comparison and `LIKE` search -/

/-- Lexicographic comparison of character lists (byte-wise collation). -/
def charListLe : List Char → List Char → Bool
  | [], _ => true
  | _ :: _, [] => false
  | a :: as, b :: bs =>
    if a < b then true
    else if b < a then false
    else charListLe as bs

/-- Lexicographic order on strings used to embed SQL `ORDER BY` on text. -/
def strLe (a b : String) : Bool := charListLe a.data b.data

/-- Order on a nullable text column, ascending with NULLs first (the MySQL
default for `ASC`, spec: missing sorted per database default). -/
def catalogLe : Option String → Option String → Bool
  | none, _ => true
  | some _, none => false
  | some a, some b => strLe a b

/-- Whether the first list is a prefix of the second. -/
def isPrefixList : List Char → List Char → Bool
  | [], _ => true
  | _ :: _, [] => false
  | a :: as, b :: bs => a == b && isPrefixList as bs

/-- Whether the first list occurs as a contiguous sublist of the second. -/
def containsSub (pat : List Char) : List Char → Bool
  | [] => isPrefixList pat []
  | c :: rest => isPrefixList pat (c :: rest) || containsSub pat rest

/-- MySQL `column LIKE concat of percent, pat, percent`: case-insensitive
substring containment. -/
def likeMatch (pat field : String) : Bool :=
  containsSub (pat.data.map Char.toLower) (field.data.map Char.toLower)

/-- `LIKE` on a nullable column: a NULL field never matches. -/
def optLike (pat : String) : Option String → Bool
  | none => false
  | some s => likeMatch pat s

/-- Python truthiness of an optional integer query parameter: applied only
when present and nonzero. -/
def truthyNat : Option Nat → Bool
  | none => false
  | some v => v != 0

/-- Python truthiness of an optional string: present and nonempty. -/
def truthyStr : Option String → Bool
  | none => false
  | some s => !(s == "")

/-! ### Deterministic `ORDER BY` comparators of the list endpoints -/

/-- `read_composers` order key: `CASE WHEN birth_year IS NULL THEN 1 ELSE 0`,
then `birth_year ASC`, then `name ASC` (`app/routers/composers.py`). -/
def composerOrderLe (a b : Composer) : Bool :=
  let fa : Nat := match a.birth_year with | none => 1 | some _ => 0
  let fb : Nat := match b.birth_year with | none => 1 | some _ => 0
  if fa < fb then true
  else if fb < fa then false
  else
    let ya := a.birth_year.getD 0
    let yb := b.birth_year.getD 0
    if ya < yb then true
    else if yb < ya then false
    else strLe a.name b.name

/-- `read_artists` order key: `name ASC` only (`app/routers/artists.py`). -/
def artistOrderLe (a b : Artist) : Bool := strLe a.name b.name

/-- `read_compositions` order key: `composer_id ASC`, null flag of
`sort_order`, `sort_order ASC`, `catalog_number ASC`. -/
def compositionOrderLe (a b : Composition) : Bool :=
  if a.composer_id < b.composer_id then true
  else if b.composer_id < a.composer_id then false
  else
    let fa : Nat := match a.sort_order with | none => 1 | some _ => 0
    let fb : Nat := match b.sort_order with | none => 1 | some _ => 0
    if fa < fb then true
    else if fb < fa then false
    else
      let sa := a.sort_order.getD 0
      let sb := b.sort_order.getD 0
      if sa < sb then true
      else if sb < sa then false
      else catalogLe a.catalog_number b.catalog_number

/-- `read_recordings` order key: null flag of `year`, `year DESC`, `id DESC`. -/
def recordingOrderLe (a b : Recording) : Bool :=
  let fa : Nat := match a.year with | none => 1 | some _ => 0
  let fb : Nat := match b.year with | none => 1 | some _ => 0
  if fa < fb then true
  else if fb < fa then false
  else
    let ya := a.year.getD 0
    let yb := b.year.getD 0
    if yb < ya then true
    else if ya < yb then false
    else decide (b.id ≤ a.id)

/-- `read_albums` order key: `id DESC`. -/
def albumOrderLe (a b : Album) : Bool := decide (b.id ≤ a.id)

/-- `composerOrderLe` as a decidable relation for sorting. -/
def composerRel : Composer → Composer → Prop := fun a b => composerOrderLe a b = true

instance : DecidableRel composerRel :=
  fun a b => inferInstanceAs (Decidable (composerOrderLe a b = true))

/-- `artistOrderLe` as a decidable relation for sorting. -/
def artistRel : Artist → Artist → Prop := fun a b => artistOrderLe a b = true

instance : DecidableRel artistRel :=
  fun a b => inferInstanceAs (Decidable (artistOrderLe a b = true))

/-- `compositionOrderLe` as a decidable relation for sorting. -/
def compositionRel : Composition → Composition → Prop :=
  fun a b => compositionOrderLe a b = true

instance : DecidableRel compositionRel :=
  fun a b => inferInstanceAs (Decidable (compositionOrderLe a b = true))

/-- `recordingOrderLe` as a decidable relation for sorting. -/
def recordingRel : Recording → Recording → Prop :=
  fun a b => recordingOrderLe a b = true

instance : DecidableRel recordingRel :=
  fun a b => inferInstanceAs (Decidable (recordingOrderLe a b = true))

/-- `albumOrderLe` as a decidable relation for sorting. -/
def albumRel : Album → Album → Prop := fun a b => albumOrderLe a b = true

instance : DecidableRel albumRel :=
  fun a b => inferInstanceAs (Decidable (albumOrderLe a b = true))

/-- Relationship `Recording.artists` is ordered by `artist_order`. -/
def recArtistOrderRel : RecordingArtist → RecordingArtist → Prop :=
  fun a b => a.artist_order ≤ b.artist_order

instance : DecidableRel recArtistOrderRel :=
  fun a b => inferInstanceAs (Decidable (a.artist_order ≤ b.artist_order))

/-- Relationship `Album.recordings` is ordered by `recording_order`. -/
def albumRecOrderRel : AlbumRecording → AlbumRecording → Prop :=
  fun a b => a.recording_order ≤ b.recording_order

instance : DecidableRel albumRecOrderRel :=
  fun a b => inferInstanceAs (Decidable (a.recording_order ≤ b.recording_order))

/-- Relationship `Album.custom_urls` is ordered by `url_order`. -/
def customUrlOrderRel : AlbumCustomUrl → AlbumCustomUrl → Prop :=
  fun a b => a.url_order ≤ b.url_order

instance : DecidableRel customUrlOrderRel :=
  fun a b => inferInstanceAs (Decidable (a.url_order ≤ b.url_order))

/-! ### Relationship read-back -/

/-- The ordered artist list of a recording: association rows of the owner,
ordered by `artist_order`, joined to the `artists` table
(`Recording.artists` relationship in `app/models.py`). -/
def recordingArtists (db : DB) (rid : Nat) : List Artist :=
  (List.insertionSort recArtistOrderRel
      (db.recording_artists.filter (fun ra => ra.recording_id == rid))).filterMap
    (fun ra => db.artists.find? (fun a => a.id == ra.artist_id))

/-- The ordered recording list of an album, each with its ordered artists
(`Album.recordings` relationship, eager-loaded with `Recording.artists`). -/
def albumRecordings (db : DB) (aid : Nat) : List (Recording × List Artist) :=
  ((List.insertionSort albumRecOrderRel
      (db.album_recordings.filter (fun ar => ar.album_id == aid))).filterMap
    (fun ar => db.recordings.find? (fun r => r.id == ar.recording_id))).map
    (fun r => (r, recordingArtists db r.id))

/-- The image list of an album (`Album.images` relationship, table order). -/
def albumImages (db : DB) (aid : Nat) : List AlbumImage :=
  db.album_images.filter (fun im => im.album_id == aid)

/-- The ordered custom-URL list of an album (`Album.custom_urls`, ordered by
`url_order`). -/
def albumCustomUrls (db : DB) (aid : Nat) : List AlbumCustomUrl :=
  List.insertionSort customUrlOrderRel
    (db.album_custom_urls.filter (fun cu => cu.album_id == aid))

/-! ### List endpoints (`read_*`) -/

/-- `read_composers` (`app/routers/composers.py`): optional case-insensitive
search over `full_name`, `name` and `nationality` (disjunctive), then the
deterministic order, then offset/limit pagination. -/
def read_composers (db : DB) (skip limit : Nat) (search : Option String) :
    List Composer :=
  let base :=
    match search with
    | some s =>
      if s == "" then db.composers
      else db.composers.filter (fun c =>
        likeMatch s c.full_name || likeMatch s c.name || optLike s c.nationality)
    | none => db.composers
  ((List.insertionSort composerRel base).drop skip).take limit

/-- Number of `recording_artists` rows of one artist: the grouped count
subquery of `read_artists`, with `coalesce` to `0` when there are none. -/
def artistRecordingCount (db : DB) (aid : Nat) : Nat :=
  (db.recording_artists.filter (fun ra => ra.artist_id == aid)).length

/-- `read_artists` (`app/routers/artists.py`): optional search over `name`,
`nationality` and `instrument`, order by `name ASC`, pagination, and a
derived `recording_count` per row.  The count join is one-to-at-most-one and
touches no filter or order key, so attaching it after pagination is
equivalent. -/
def read_artists (db : DB) (skip limit : Nat) (search : Option String) :
    List (Artist × Nat) :=
  let base :=
    match search with
    | some s =>
      if s == "" then db.artists
      else db.artists.filter (fun a =>
        likeMatch s a.name || optLike s a.nationality || optLike s a.instrument)
    | none => db.artists
  (((List.insertionSort artistRel base).drop skip).take limit).map
    (fun a => (a, artistRecordingCount db a.id))

/-- Number of recordings of one composition: the grouped count subquery of
`read_compositions`, with `coalesce` to `0`. -/
def compositionRecordingCount (db : DB) (cid : Nat) : Nat :=
  (db.recordings.filter (fun r => r.composition_id == cid)).length

/-- `read_compositions` (`app/routers/compositions.py`): a truthy
`composer_id` equality filter, optional search over `title` and
`catalog_number`, deterministic order, pagination, and a derived
`recording_count` per row. -/
def read_compositions (db : DB) (skip limit : Nat) (composer_id : Option Nat)
    (search : Option String) : List (Composition × Nat) :=
  let q := db.compositions
  let q :=
    match composer_id with
    | some v => if v != 0 then q.filter (fun c => c.composer_id == v) else q
    | none => q
  let q :=
    match search with
    | some s =>
      if s == "" then q
      else q.filter (fun c => likeMatch s c.title || optLike s c.catalog_number)
    | none => q
  (((List.insertionSort compositionRel q).drop skip).take limit).map
    (fun c => (c, compositionRecordingCount db c.id))

/-- `read_recordings` (`app/routers/recordings.py`): truthy equality filters
by composition, by composer (join through `Composition`) and by artist (join
through the association table), deterministic order, pagination, artists
eager-loaded per row. -/
def read_recordings (db : DB) (skip limit : Nat)
    (composition_id composer_id artist_id : Option Nat) :
    List (Recording × List Artist) :=
  let q := db.recordings
  let q :=
    match composition_id with
    | some v => if v != 0 then q.filter (fun r => r.composition_id == v) else q
    | none => q
  let q :=
    match composer_id with
    | some v =>
      if v != 0 then
        q.filter (fun r => db.compositions.any
          (fun c => c.id == r.composition_id && c.composer_id == v))
      else q
    | none => q
  let q :=
    match artist_id with
    | some v =>
      if v != 0 then
        q.filter (fun r => db.recording_artists.any
          (fun ra => ra.recording_id == r.id && ra.artist_id == v))
      else q
    | none => q
  (((List.insertionSort recordingRel q).drop skip).take limit).map
    (fun r => (r, recordingArtists db r.id))

/-- One album as the album list endpoint returns it: row, ordered recordings
with their artists, images and ordered custom URLs. -/
structure AlbumView where
  album : Album
  recordings : List (Recording × List Artist)
  images : List AlbumImage
  custom_urls : List AlbumCustomUrl
deriving DecidableEq

/-- The eager-loaded view of one album. -/
def albumView (db : DB) (a : Album) : AlbumView :=
  { album := a
    recordings := albumRecordings db a.id
    images := albumImages db a.id
    custom_urls := albumCustomUrls db a.id }

/-- `read_albums` (`app/routers/albums.py`): truthy `album_type` equality
filter, order by `id DESC`, pagination, eager-loaded relationships. -/
def read_albums (db : DB) (skip limit : Nat) (album_type : Option String) :
    List AlbumView :=
  let q := db.albums
  let q :=
    match album_type with
    | some s => if !(s == "") then q.filter (fun a => a.album_type == s) else q
    | none => q
  (((List.insertionSort albumRel q).drop skip).take limit).map (albumView db)

/-- `read_composition` by id (`app/routers/compositions.py`). -/
def read_composition (db : DB) (cid : Nat) : Except ApiError Composition :=
  match db.compositions.find? (fun c => c.id == cid) with
  | none => .error .notFoundEntity
  | some c => .ok c

/-- `read_recording` by id (`app/routers/recordings.py`), artists
eager-loaded. -/
def read_recording (db : DB) (rid : Nat) :
    Except ApiError (Recording × List Artist) :=
  match db.recordings.find? (fun r => r.id == rid) with
  | none => .error .notFoundEntity
  | some r => .ok (r, recordingArtists db r.id)

/-! ### Composition create and update -/

/-- Payload of `POST /compositions` (`schemas.py`, `CompositionCreate`). -/
structure CompositionCreate where
  composer_id : Nat
  catalog_number : Option String
  title : String
deriving DecidableEq

/-- Payload of `PUT /compositions` (`schemas.py`, `CompositionUpdate`,
`exclude_unset=True`).  `catalog_number` keeps the mention-vs-value
distinction because its mention recomputes `sort_order`. -/
structure CompositionUpdate where
  composer_id : Option Nat
  catalog_number : Option (Option String)
  title : Option String
deriving DecidableEq

/-- `create_composition` (`app/routers/compositions.py`): composer existence,
title conflict within the composer, catalog conflict within the composer when
the catalog number is truthy, then insert with the derived `sort_order`. -/
def create_composition (db : DB) (p : CompositionCreate) :
    Except ApiError (DB × Composition) :=
  match db.composers.find? (fun c => c.id == p.composer_id) with
  | none => .error (.notFoundComposer p.composer_id)
  | some _ =>
    match db.compositions.find?
        (fun c => c.composer_id == p.composer_id && c.title == p.title) with
    | some _ => .error (.conflictTitle p.title)
    | none =>
      if truthyStr p.catalog_number &&
          (db.compositions.find? (fun c =>
            c.composer_id == p.composer_id &&
            c.catalog_number == p.catalog_number)).isSome then
        .error (.conflictCatalog (p.catalog_number.getD ""))
      else
        let row : Composition :=
          { id := db.next_composition_id
            composer_id := p.composer_id
            catalog_number := p.catalog_number
            sort_order := extract_sort_order p.catalog_number
            title := p.title }
        .ok ({ db with
                compositions := db.compositions ++ [row]
                next_composition_id := db.next_composition_id + 1 }, row)

/-- `update_composition` (`app/routers/compositions.py`): find the row,
verify a truthy new composer id, run both conflict searches against the
target composer excluding the row itself, recompute `sort_order` when the
payload mentions `catalog_number`, and apply the remaining fields. -/
def update_composition (db : DB) (cid : Nat) (p : CompositionUpdate) :
    Except ApiError (DB × Composition) :=
  match db.compositions.find? (fun c => c.id == cid) with
  | none => .error .notFoundEntity
  | some cur =>
    if (match p.composer_id with
        | some v => v != 0 && (db.composers.find? (fun c => c.id == v)).isNone
        | none => false : Bool) then
      .error (.notFoundComposer (p.composer_id.getD 0))
    else
      let composer_id_to_check := p.composer_id.getD cur.composer_id
      if (match p.title with
          | some t => (db.compositions.find? (fun c =>
              c.composer_id == composer_id_to_check && c.title == t &&
              !(c.id == cid))).isSome
          | none => false : Bool) then
        .error (.conflictTitle (p.title.getD ""))
      else
        if (match p.catalog_number with
            | some cv => truthyStr cv && (db.compositions.find? (fun c =>
                c.composer_id == composer_id_to_check &&
                c.catalog_number == cv && !(c.id == cid))).isSome
            | none => false : Bool) then
          .error (.conflictCatalog ((p.catalog_number.getD none).getD ""))
        else
          let newRow : Composition :=
            { id := cur.id
              composer_id := p.composer_id.getD cur.composer_id
              catalog_number := (p.catalog_number.getD cur.catalog_number)
              sort_order :=
                match p.catalog_number with
                | some cv => extract_sort_order cv
                | none => cur.sort_order
              title := p.title.getD cur.title }
          .ok ({ db with
                  compositions := db.compositions.map
                    (fun c => if c.id == cid then newRow else c) }, newRow)

/-! ### Recording create and update (ordered artist association) -/

/-- Payload of `POST /recordings` (`schemas.py`, `RecordingCreate`). -/
structure RecordingCreate where
  composition_id : Nat
  year : Option Int
  artist_ids : List Nat
deriving DecidableEq

/-- Payload of `PUT /recordings` (`schemas.py`, `RecordingUpdate`,
`exclude_unset=True`).  An `artist_ids` mentioned as null is popped and
skipped by the handler, which is observably identical to leaving it absent,
so both collapse to `none`. -/
structure RecordingUpdate where
  composition_id : Option Nat
  year : Option (Option Int)
  artist_ids : Option (List Nat)
deriving DecidableEq

/-- The association rows written by
`for order, artist_id in enumerate(artist_ids)` starting at position
`start` (`start = 0` at the call sites). -/
def insertRecordingArtistRows (rid : Nat) : List Nat → Nat → List RecordingArtist
  | [], _ => []
  | i :: rest, start =>
    { recording_id := rid, artist_id := i, artist_order := start } ::
      insertRecordingArtistRows rid rest (start + 1)

/-- The existing artists among `ids`: `query(Artist).filter(Artist.id.in_(ids))`,
one row per stored artist whose id occurs in `ids`. -/
def fetchArtists (db : DB) (ids : List Nat) : List Artist :=
  db.artists.filter (fun a => ids.contains a.id)

/-- The Python set `set(ids) - found_ids` of input ids without a fetched row. -/
def missingIds (ids : List Nat) (found : List Nat) : Finset Nat :=
  ids.toFinset \ found.toFinset

/-- `create_recording` (`app/routers/recordings.py`): composition existence,
artist existence by comparing the fetched count with the input length, then
insert the recording (flushed to obtain its id) and one ordered association
row per input element. -/
def create_recording (db : DB) (p : RecordingCreate) :
    Except ApiError (DB × Recording) :=
  if (db.compositions.find? (fun c => c.id == p.composition_id)).isNone then
    .error (.notFoundComposition p.composition_id)
  else
    let artists := fetchArtists db p.artist_ids
    if artists.length != p.artist_ids.length then
      .error (.notFoundArtists
        (missingIds p.artist_ids (artists.map (fun a => a.id))))
    else
      let row : Recording :=
        { id := db.next_recording_id
          composition_id := p.composition_id
          year := p.year }
      .ok ({ db with
              recordings := db.recordings ++ [row]
              recording_artists := db.recording_artists ++
                insertRecordingArtistRows row.id p.artist_ids 0
              next_recording_id := db.next_recording_id + 1 }, row)

/-- `update_recording` (`app/routers/recordings.py`): find the row; when the
payload mentions a non-null `artist_ids`, verify all artists exist, delete
the owner's association rows and reinsert them in the new order; verify a
mentioned `composition_id`; apply the remaining fields. -/
def update_recording (db : DB) (rid : Nat) (p : RecordingUpdate) :
    Except ApiError (DB × Recording) :=
  match db.recordings.find? (fun r => r.id == rid) with
  | none => .error .notFoundEntity
  | some cur =>
    let assocStep : Except ApiError (List RecordingArtist) :=
      match p.artist_ids with
      | none => .ok db.recording_artists
      | some ids =>
        let artists := fetchArtists db ids
        if artists.length != ids.length then
          .error (.notFoundArtists (missingIds ids (artists.map (fun a => a.id))))
        else
          .ok ((db.recording_artists.filter
                (fun ra => !(ra.recording_id == rid))) ++
              insertRecordingArtistRows rid ids 0)
    match assocStep with
    | .error e => .error e
    | .ok ra' =>
      if (match p.composition_id with
          | some v => (db.compositions.find? (fun c => c.id == v)).isNone
          | none => false : Bool) then
        .error (.notFoundComposition (p.composition_id.getD 0))
      else
        let newRec : Recording :=
          { id := cur.id
            composition_id := p.composition_id.getD cur.composition_id
            year := p.year.getD cur.year }
        .ok ({ db with
                recordings := db.recordings.map
                  (fun r => if r.id == rid then newRec else r)
                recording_artists := ra' }, newRec)

/-- `delete_recording` is not needed by any claim and is not modelled;
`delete_composer` below carries the cascade claims. -/
def deleteRecordingUnmodelled : Unit := ()

/-! ### Album create and update (ordered recording association) -/

/-- Payload element of `custom_urls` (`schemas.py`, `AlbumCustomUrlBase`). -/
structure AlbumCustomUrlBase where
  url_name : String
  url : String
  url_order : Int
deriving DecidableEq

/-- Payload of `POST /albums` (`schemas.py`, `AlbumCreate`). -/
structure AlbumCreate where
  album_type : String
  discogs_url : Option String
  goclassic_url : Option String
  memo : Option String
  recording_ids : List Nat
  image_urls : List String
  primary_image_index : Option Int
  custom_urls : List AlbumCustomUrlBase
deriving DecidableEq

/-- Payload of `PUT /albums` (`schemas.py`, `AlbumUpdate`,
`exclude_unset=True`).  List fields mentioned as null are popped and skipped
by the handler, identically to being absent, so they collapse to `none`;
nullable text columns keep the mention-vs-value distinction. -/
structure AlbumUpdate where
  album_type : Option String
  discogs_url : Option (Option String)
  goclassic_url : Option (Option String)
  memo : Option (Option String)
  recording_ids : Option (List Nat)
  image_urls : Option (List String)
  primary_image_index : Option Int
  custom_urls : Option (List AlbumCustomUrlBase)
deriving DecidableEq

/-- The association rows written by
`for order, recording_id in enumerate(recording_ids)` starting at `start`. -/
def insertAlbumRecordingRows (aid : Nat) : List Nat → Nat → List AlbumRecording
  | [], _ => []
  | i :: rest, start =>
    { album_id := aid, recording_id := i, recording_order := start } ::
      insertAlbumRecordingRows aid rest (start + 1)

/-- The image rows written by `for idx, image_url in enumerate(image_urls)`:
`is_primary` is `1` exactly when `primary_image_index` is set and equals the
index.  Autoincrement ids start at `nextId`. -/
def insertAlbumImageRows (aid nextId : Nat) (primary : Option Int) :
    List String → Nat → List AlbumImage
  | [], _ => []
  | u :: rest, idx =>
    { id := nextId
      album_id := aid
      image_url := u
      is_primary := if primary == some (Int.ofNat idx) then 1 else 0 } ::
      insertAlbumImageRows aid (nextId + 1) primary rest (idx + 1)

/-- The custom-URL rows written by the `custom_urls` loop; both the dict and
the model branch read the same three fields. -/
def insertAlbumCustomUrlRows (aid nextId : Nat) :
    List AlbumCustomUrlBase → List AlbumCustomUrl
  | [] => []
  | c :: rest =>
    { id := nextId
      album_id := aid
      url_name := c.url_name
      url := c.url
      url_order := c.url_order } ::
      insertAlbumCustomUrlRows aid (nextId + 1) rest

/-- The existing recordings among `ids`:
`query(Recording).filter(Recording.id.in_(ids))`. -/
def fetchRecordings (db : DB) (ids : List Nat) : List Recording :=
  db.recordings.filter (fun r => ids.contains r.id)

/-- `create_album` (`app/routers/albums.py`): when `recording_ids` is truthy
(nonempty) verify all recordings exist; insert the album (flushed for its
id), the ordered association rows, the enumerated images and the custom
URLs. -/
def create_album (db : DB) (p : AlbumCreate) : Except ApiError (DB × Album) :=
  if (if p.recording_ids.isEmpty then false
      else (fetchRecordings db p.recording_ids).length != p.recording_ids.length
      : Bool)
  then
    .error (.notFoundRecordings
      (missingIds p.recording_ids
        ((fetchRecordings db p.recording_ids).map (fun r => r.id))))
  else
    let row : Album :=
      { id := db.next_album_id
        album_type := p.album_type
        discogs_url := p.discogs_url
        goclassic_url := p.goclassic_url
        memo := p.memo }
    .ok ({ db with
            albums := db.albums ++ [row]
            album_recordings := db.album_recordings ++
              insertAlbumRecordingRows row.id p.recording_ids 0
            album_images := db.album_images ++
              insertAlbumImageRows row.id db.next_album_image_id
                p.primary_image_index p.image_urls 0
            album_custom_urls := db.album_custom_urls ++
              insertAlbumCustomUrlRows row.id db.next_album_custom_url_id
                p.custom_urls
            next_album_id := db.next_album_id + 1
            next_album_image_id := db.next_album_image_id + p.image_urls.length
            next_album_custom_url_id :=
              db.next_album_custom_url_id + p.custom_urls.length }, row)

/-- `update_album` (`app/routers/albums.py`): find the row; replace the
ordered recording association when `recording_ids` is mentioned non-null
(verifying existence first); replace images when `image_urls` is mentioned
non-null, consuming `primary_image_index`; replace custom URLs when
mentioned non-null; apply the remaining fields. -/
def update_album (db : DB) (aid : Nat) (p : AlbumUpdate) :
    Except ApiError (DB × Album) :=
  match db.albums.find? (fun a => a.id == aid) with
  | none => .error .notFoundEntity
  | some cur =>
    let assocStep : Except ApiError (List AlbumRecording) :=
      match p.recording_ids with
      | none => .ok db.album_recordings
      | some ids =>
        let recs := fetchRecordings db ids
        if recs.length != ids.length then
          .error (.notFoundRecordings (missingIds ids (recs.map (fun r => r.id))))
        else
          .ok ((db.album_recordings.filter (fun ar => !(ar.album_id == aid))) ++
              insertAlbumRecordingRows aid ids 0)
    match assocStep with
    | .error e => .error e
    | .ok ar' =>
      let images' :=
        match p.image_urls with
        | none => db.album_images
        | some urls =>
          (db.album_images.filter (fun im => !(im.album_id == aid))) ++
            insertAlbumImageRows aid db.next_album_image_id
              p.primary_image_index urls 0
      let nextImage' :=
        match p.image_urls with
        | none => db.next_album_image_id
        | some urls => db.next_album_image_id + urls.length
      let custom' :=
        match p.custom_urls with
        | none => db.album_custom_urls
        | some cs =>
          (db.album_custom_urls.filter (fun cu => !(cu.album_id == aid))) ++
            insertAlbumCustomUrlRows aid db.next_album_custom_url_id cs
      let nextCustom' :=
        match p.custom_urls with
        | none => db.next_album_custom_url_id
        | some cs => db.next_album_custom_url_id + cs.length
      let newAlbum : Album :=
        { id := cur.id
          album_type := p.album_type.getD cur.album_type
          discogs_url := p.discogs_url.getD cur.discogs_url
          goclassic_url := p.goclassic_url.getD cur.goclassic_url
          memo := p.memo.getD cur.memo }
      .ok ({ db with
              albums := db.albums.map (fun a => if a.id == aid then newAlbum else a)
              album_recordings := ar'
              album_images := images'
              next_album_image_id := nextImage'
              album_custom_urls := custom'
              next_album_custom_url_id := nextCustom' }, newAlbum)

/-! ### Composer deletion (cascades) -/

/-- `delete_composer` (`app/routers/composers.py`) with its cascades: the ORM
relationship deletes the composer's compositions (`cascade all,
delete-orphan`), and the storage-level `ON DELETE CASCADE` foreign keys then
remove the recordings of those compositions and the association rows of those
recordings.  The image-file unlink touches only the filesystem and is not
part of the store. -/
def delete_composer (db : DB) (cid : Nat) : Except ApiError DB :=
  match db.composers.find? (fun c => c.id == cid) with
  | none => .error .notFoundEntity
  | some _ =>
    let deadCompositions :=
      (db.compositions.filter (fun c => c.composer_id == cid)).map (fun c => c.id)
    let deadRecordings :=
      (db.recordings.filter
        (fun r => deadCompositions.contains r.composition_id)).map (fun r => r.id)
    .ok { db with
          composers := db.composers.filter (fun c => !(c.id == cid))
          compositions :=
            db.compositions.filter (fun c => !(c.composer_id == cid))
          recordings := db.recordings.filter
            (fun r => !(deadCompositions.contains r.composition_id))
          recording_artists := db.recording_artists.filter
            (fun ra => !(deadRecordings.contains ra.recording_id))
          album_recordings := db.album_recordings.filter
            (fun ar => !(deadRecordings.contains ar.recording_id)) }

/-! ### Store well-formedness -/

/-- Invariants the storage schema guarantees: primary keys are unique,
autoincrement counters are ahead of every stored id, association rows
reference existing owners, and the two composition uniqueness constraints
hold. -/
structure WF (db : DB) : Prop where
  composers_nodup : (db.composers.map (fun c => c.id)).Nodup
  compositions_nodup : (db.compositions.map (fun c => c.id)).Nodup
  artists_nodup : (db.artists.map (fun a => a.id)).Nodup
  recordings_nodup : (db.recordings.map (fun r => r.id)).Nodup
  albums_nodup : (db.albums.map (fun a => a.id)).Nodup
  compositions_lt_next : ∀ c ∈ db.compositions, c.id < db.next_composition_id
  recordings_lt_next : ∀ r ∈ db.recordings, r.id < db.next_recording_id
  albums_lt_next : ∀ a ∈ db.albums, a.id < db.next_album_id
  ra_owner_exists : ∀ ra ∈ db.recording_artists,
    ra.recording_id ∈ recordingIds db
  ar_owner_exists : ∀ ar ∈ db.album_recordings, ar.album_id ∈ albumIds db
  title_unique : ∀ c₁ ∈ db.compositions, ∀ c₂ ∈ db.compositions,
    c₁.composer_id = c₂.composer_id → c₁.title = c₂.title → c₁ = c₂
  catalog_unique : ∀ c₁ ∈ db.compositions, ∀ c₂ ∈ db.compositions,
    c₁.composer_id = c₂.composer_id → c₁.catalog_number = c₂.catalog_number →
    c₁.catalog_number ≠ none → c₁ = c₂

/-- Equality of handler results is decidable, so concrete runs can be checked
by evaluation. -/
instance {ε α : Type} [DecidableEq ε] [DecidableEq α] : DecidableEq (Except ε α) :=
  fun x y =>
    match x, y with
    | .error e, .error f =>
      if h : e = f then isTrue (by rw [h])
      else isFalse (fun hc => by injection hc; exact h (by assumption))
    | .error _, .ok _ => isFalse (fun hc => by injection hc)
    | .ok _, .error _ => isFalse (fun hc => by injection hc)
    | .ok a, .ok b =>
      if h : a = b then isTrue (by rw [h])
      else isFalse (fun hc => by injection hc; exact h (by assumption))

/-! ### Spec-side ordering relations (from the spec's words, for refinement) -/

/-- The ordering §4.3 prescribes for composers and artists: ascending by
birth year, records without a birth year after all records that have one,
ties broken by ascending name. -/
def specBirthNameLe (ya yb : Option Int) (na nb : String) : Bool :=
  match ya, yb with
  | some x, some y => if x = y then strLe na nb else decide (x < y)
  | some _, none => true
  | none, some _ => false
  | none, none => strLe na nb

/-! ### Concrete stores used by witnesses and counterexamples -/

/-- A small well-formed store: two composers, one catalogued composition of
the first, one recording of it, two artists, one album. -/
def dbW : DB where
  composers := [{ id := 1, full_name := "Johann Sebastian Bach",
                  name := "Bach", birth_year := some 1685,
                  death_year := some 1750, nationality := some "German",
                  image_url := none },
                { id := 2, full_name := "George Frideric Handel",
                  name := "Handel", birth_year := some 1685,
                  death_year := some 1759, nationality := some "German",
                  image_url := none }]
  compositions := [{ id := 1, composer_id := 1,
                     catalog_number := some "BWV 1060",
                     sort_order := some 1060, title := "Concerto" }]
  artists := [{ id := 1, name := "Alpha", birth_year := none,
                death_year := none, nationality := none, instrument := none },
              { id := 2, name := "Zeta", birth_year := some 1900,
                death_year := none, nationality := none, instrument := none }]
  recordings := [{ id := 1, composition_id := 1, year := some 1960 }]
  recording_artists := []
  albums := [{ id := 1, album_type := "LP", discogs_url := none,
               goclassic_url := none, memo := none }]
  album_recordings := []
  album_images := []
  album_custom_urls := []
  next_composition_id := 2
  next_recording_id := 2
  next_album_id := 2
  next_album_image_id := 1
  next_album_custom_url_id := 1

/-- Store for the C8 witness: one composer, no compositions yet. -/
def dbW8 : DB where
  composers := [{ id := 1, full_name := "Wolfgang Amadeus Mozart",
                  name := "Mozart", birth_year := some 1756,
                  death_year := some 1791, nationality := some "Austrian",
                  image_url := none }]
  compositions := []
  artists := []
  recordings := []
  recording_artists := []
  albums := []
  album_recordings := []
  album_images := []
  album_custom_urls := []
  next_composition_id := 1
  next_recording_id := 1
  next_album_id := 1
  next_album_image_id := 1
  next_album_custom_url_id := 1

/-- Row produced by the C8 witness create. -/
def rowW8 : Composition where
  id := 1
  composer_id := 1
  catalog_number := some "K. 525"
  sort_order := some 525
  title := "Eine kleine Nachtmusik"

/-- Store after the C8 witness create. -/
def dbW8c : DB := { dbW8 with compositions := [rowW8], next_composition_id := 2 }

/-- Row produced by the C8 witness update (catalog number changed). -/
def rowU8 : Composition where
  id := 1
  composer_id := 1
  catalog_number := some "K. 525a"
  sort_order := some 525
  title := "Eine kleine Nachtmusik"

/-- Store after the C8 witness update. -/
def dbW8u : DB := { dbW8c with compositions := [rowU8] }

/-- Store for the C5 counterexample: an artist without a birth year whose
name precedes the name of an artist born in 1900. -/
def dbC5 : DB where
  composers := []
  compositions := []
  artists := [{ id := 1, name := "Alpha", birth_year := none,
                death_year := none, nationality := none, instrument := none },
              { id := 2, name := "Zeta", birth_year := some 1900,
                death_year := none, nationality := none, instrument := none }]
  recordings := []
  recording_artists := []
  albums := []
  album_recordings := []
  album_images := []
  album_custom_urls := []
  next_composition_id := 1
  next_recording_id := 1
  next_album_id := 1
  next_album_image_id := 1
  next_album_custom_url_id := 1

/-! ### Order-theoretic facts about the comparators -/

theorem charListLe_total : ∀ l₁ l₂ : List Char,
    charListLe l₁ l₂ = true ∨ charListLe l₂ l₁ = true := by
  intro l₁
  induction l₁ with
  | nil => intro l₂; left; rfl
  | cons a as ih =>
    intro l₂
    cases l₂ with
    | nil => right; rfl
    | cons b bs =>
      simp only [charListLe]
      rcases lt_trichotomy a b with hab | hab | hab
      · left; rw [if_pos hab]
      · subst hab
        simp only [if_neg (lt_irrefl a)]
        exact ih bs
      · right; rw [if_pos hab]

theorem charListLe_trans : ∀ l₁ l₂ l₃ : List Char,
    charListLe l₁ l₂ = true → charListLe l₂ l₃ = true →
    charListLe l₁ l₃ = true := by
  intro l₁
  induction l₁ with
  | nil => intro l₂ l₃ _ _; rfl
  | cons a as ih =>
    intro l₂ l₃ h₁ h₂
    cases l₂ with
    | nil => simp [charListLe] at h₁
    | cons b bs =>
      cases l₃ with
      | nil => simp [charListLe] at h₂
      | cons c cs =>
        simp only [charListLe] at h₁ h₂ ⊢
        rcases lt_trichotomy a b with hab | hab | hab
        · rcases lt_trichotomy b c with hbc | hbc | hbc
          · rw [if_pos (lt_trans hab hbc)]
          · subst hbc; rw [if_pos hab]
          · rw [if_neg (lt_asymm hbc), if_pos hbc] at h₂
            exact absurd h₂ (by simp)
        · subst hab
          rw [if_neg (lt_irrefl a), if_neg (lt_irrefl a)] at h₁
          rcases lt_trichotomy a c with hac | hac | hac
          · rw [if_pos hac]
          · subst hac
            rw [if_neg (lt_irrefl a), if_neg (lt_irrefl a)] at h₂ ⊢
            exact ih bs cs h₁ h₂
          · rw [if_neg (lt_asymm hac), if_pos hac] at h₂
            exact absurd h₂ (by simp)
        · rw [if_neg (lt_asymm hab), if_pos hab] at h₁
          exact absurd h₁ (by simp)

theorem strLe_total (a b : String) : strLe a b = true ∨ strLe b a = true :=
  charListLe_total a.data b.data

theorem strLe_trans {a b c : String} (h₁ : strLe a b = true)
    (h₂ : strLe b c = true) : strLe a c = true :=
  charListLe_trans a.data b.data c.data h₁ h₂

instance : IsTotal Artist artistRel :=
  ⟨fun a b => strLe_total a.name b.name⟩

instance : IsTrans Artist artistRel :=
  ⟨fun _ _ _ h₁ h₂ => strLe_trans h₁ h₂⟩

/-- The null flag of the composer comparator. -/
def birthFlag (y : Option Int) : Nat :=
  match y with | none => 1 | some _ => 0

theorem composerOrderLe_eq (a b : Composer) :
    composerOrderLe a b =
      (if birthFlag a.birth_year < birthFlag b.birth_year then true
       else if birthFlag b.birth_year < birthFlag a.birth_year then false
       else if a.birth_year.getD 0 < b.birth_year.getD 0 then true
       else if b.birth_year.getD 0 < a.birth_year.getD 0 then false
       else strLe a.name b.name) := rfl

instance : IsTotal Composer composerRel := by
  constructor
  intro a b
  show composerOrderLe a b = true ∨ composerOrderLe b a = true
  rw [composerOrderLe_eq, composerOrderLe_eq]
  rcases lt_trichotomy (birthFlag a.birth_year) (birthFlag b.birth_year) with h | h | h
  · left; rw [if_pos h]
  · rw [h, if_neg (lt_irrefl _), if_neg (lt_irrefl _), if_neg (lt_irrefl _),
      if_neg (lt_irrefl _)]
    rcases lt_trichotomy (a.birth_year.getD 0) (b.birth_year.getD 0) with h' | h' | h'
    · left; rw [if_pos h']
    · rw [h', if_neg (lt_irrefl _), if_neg (lt_irrefl _), if_neg (lt_irrefl _),
        if_neg (lt_irrefl _)]
      exact strLe_total a.name b.name
    · right; rw [if_pos h']
  · right; rw [if_pos h]

instance : IsTrans Composer composerRel := by
  constructor
  intro a b c h₁ h₂
  replace h₁ : composerOrderLe a b = true := h₁
  replace h₂ : composerOrderLe b c = true := h₂
  show composerOrderLe a c = true
  rw [composerOrderLe_eq] at h₁ h₂ ⊢
  rcases lt_trichotomy (birthFlag a.birth_year) (birthFlag b.birth_year) with hf | hf | hf
  · rcases lt_trichotomy (birthFlag b.birth_year) (birthFlag c.birth_year) with hg | hg | hg
    · rw [if_pos (lt_trans hf hg)]
    · rw [← hg, if_pos hf]
    · rw [if_neg (lt_asymm hg), if_pos hg] at h₂
      exact absurd h₂ (by simp)
  · rw [hf, if_neg (lt_irrefl _), if_neg (lt_irrefl _)] at h₁
    rcases lt_trichotomy (birthFlag b.birth_year) (birthFlag c.birth_year) with hg | hg | hg
    · rw [hf, if_pos hg]
    · rw [hf, hg, if_neg (lt_irrefl _), if_neg (lt_irrefl _)]
      rw [hg, if_neg (lt_irrefl _), if_neg (lt_irrefl _)] at h₂
      rcases lt_trichotomy (a.birth_year.getD 0) (b.birth_year.getD 0) with hy | hy | hy
      · rcases lt_trichotomy (b.birth_year.getD 0) (c.birth_year.getD 0) with hz | hz | hz
        · rw [if_pos (lt_trans hy hz)]
        · rw [← hz, if_pos hy]
        · rw [if_neg (lt_asymm hz), if_pos hz] at h₂
          exact absurd h₂ (by simp)
      · rw [hy, if_neg (lt_irrefl _), if_neg (lt_irrefl _)] at h₁
        rcases lt_trichotomy (b.birth_year.getD 0) (c.birth_year.getD 0) with hz | hz | hz
        · rw [hy, if_pos hz]
        · rw [hy, hz, if_neg (lt_irrefl _), if_neg (lt_irrefl _)]
          rw [hz, if_neg (lt_irrefl _), if_neg (lt_irrefl _)] at h₂
          exact strLe_trans h₁ h₂
        · rw [if_neg (lt_asymm hz), if_pos hz] at h₂
          exact absurd h₂ (by simp)
      · rw [if_neg (lt_asymm hy), if_pos hy] at h₁
        exact absurd h₁ (by simp)
    · rw [if_neg (lt_asymm hg), if_pos hg] at h₂
      exact absurd h₂ (by simp)
  · rw [if_neg (lt_asymm hf), if_pos hf] at h₁
    exact absurd h₁ (by simp)

/-- The comparator the composer listing sorts by agrees with the ordering the
spec describes: ascending birth year, missing birth years last, ties broken
by ascending name. -/
theorem composerOrderLe_iff_spec (a b : Composer) :
    composerOrderLe a b = specBirthNameLe a.birth_year b.birth_year a.name b.name := by
  rw [composerOrderLe_eq]
  rcases ha : a.birth_year with _ | x <;> rcases hb : b.birth_year with _ | y <;>
    simp only [specBirthNameLe, birthFlag, Option.getD]
  · rw [if_neg (lt_irrefl _), if_neg (lt_irrefl _), if_neg (lt_irrefl _),
      if_neg (lt_irrefl _)]
  · rw [if_neg (by omega), if_pos (by omega)]
  · rw [if_pos (by omega)]
  · rw [if_neg (lt_irrefl _), if_neg (lt_irrefl _)]
    rcases lt_trichotomy x y with h | h | h
    · rw [if_pos h, if_neg (by omega), decide_eq_true h]
    · subst h
      rw [if_neg (lt_irrefl _), if_neg (lt_irrefl _), if_pos rfl]
    · rw [if_neg (lt_asymm h), if_pos h, if_neg (by omega), decide_eq_false (lt_asymm h)]

/-- A page taken out of a pairwise-ordered list is pairwise ordered. -/
theorem pairwise_page {α : Type} {r : α → α → Prop} {l : List α}
    (h : l.Pairwise r) (skip limit : Nat) :
    ((l.drop skip).take limit).Pairwise r :=
  List.Pairwise.sublist
    ((List.take_sublist _ _).trans (List.drop_sublist _ _)) h

/-! ### Counting facts behind the existence checks -/

theorem map_filter_contains {α : Type} (rows : List α) (f : α → Nat)
    (p : Nat → Bool) :
    (rows.filter (fun x => p (f x))).map f = (rows.map f).filter p := by
  induction rows with
  | nil => rfl
  | cons a l ih =>
    by_cases h : p (f a) = true
    · simp [List.filter_cons, h, ih]
    · simp [List.filter_cons, h, ih]

theorem filter_contains_perm {L ids : List Nat} (hL : L.Nodup)
    (hsub : ∀ i ∈ ids, i ∈ L) :
    (L.filter (fun i => ids.contains i)).Perm ids.dedup := by
  refine (List.perm_ext_iff_of_nodup (hL.filter _) (List.nodup_dedup ids)).mpr ?_
  intro a
  rw [List.mem_filter, List.mem_dedup, List.elem_iff]
  exact ⟨fun h => h.2, fun h => ⟨hsub a h, h⟩⟩

theorem length_filter_contains_of_nodup {L ids : List Nat} (hL : L.Nodup)
    (hnd : ids.Nodup) (hsub : ∀ i ∈ ids, i ∈ L) :
    (L.filter (fun i => ids.contains i)).length = ids.length := by
  rw [(filter_contains_perm hL hsub).length_eq, hnd.dedup]

theorem length_filter_contains_ne_of_dup {L ids : List Nat} (hL : L.Nodup)
    (hsub : ∀ i ∈ ids, i ∈ L) (hdup : ¬ ids.Nodup) :
    (L.filter (fun i => ids.contains i)).length ≠ ids.length := by
  rw [(filter_contains_perm hL hsub).length_eq]
  intro hlen
  exact hdup ((List.dedup_sublist ids).eq_of_length hlen ▸ List.nodup_dedup ids)

theorem length_filter_contains_ne_of_missing {L ids : List Nat} (hL : L.Nodup)
    (hmiss : ∃ i ∈ ids, i ∉ L) :
    (L.filter (fun i => ids.contains i)).length ≠ ids.length := by
  obtain ⟨i, hi, hiL⟩ := hmiss
  have hsubp : (L.filter (fun i => ids.contains i)).Subperm ids := by
    refine List.Nodup.subperm (hL.filter _) ?_
    intro a ha
    rw [List.mem_filter, List.elem_iff] at ha
    exact ha.2
  intro hlen
  have hperm := hsubp.perm_of_length_le (le_of_eq hlen.symm)
  have hin : i ∈ L.filter (fun j => ids.contains j) := hperm.mem_iff.mpr hi
  exact hiL (List.mem_filter.mp hin).1

theorem fetchArtists_map_id (db : DB) (ids : List Nat) :
    (fetchArtists db ids).map (fun a => a.id) =
      (artistIds db).filter (fun i => ids.contains i) :=
  map_filter_contains db.artists (fun a => a.id) (fun i => ids.contains i)

theorem fetchArtists_length (db : DB) (ids : List Nat) :
    (fetchArtists db ids).length =
      ((artistIds db).filter (fun i => ids.contains i)).length := by
  rw [← fetchArtists_map_id, List.length_map]

theorem fetchRecordings_map_id (db : DB) (ids : List Nat) :
    (fetchRecordings db ids).map (fun r => r.id) =
      (recordingIds db).filter (fun i => ids.contains i) :=
  map_filter_contains db.recordings (fun r => r.id) (fun i => ids.contains i)

theorem fetchRecordings_length (db : DB) (ids : List Nat) :
    (fetchRecordings db ids).length =
      ((recordingIds db).filter (fun i => ids.contains i)).length := by
  rw [← fetchRecordings_map_id, List.length_map]

theorem missingIds_mem (ids found : List Nat) (i : Nat) :
    i ∈ missingIds ids found ↔ i ∈ ids ∧ i ∉ found := by
  rw [missingIds, Finset.mem_sdiff, List.mem_toFinset, List.mem_toFinset]

/-- With a nodup id column, the Python missing set is exactly the input ids
without a stored row. -/
theorem missingIds_filter_char {L : List Nat} (ids : List Nat) (i : Nat) :
    i ∈ missingIds ids (L.filter (fun j => ids.contains j)) ↔
      i ∈ ids ∧ i ∉ L := by
  rw [missingIds_mem, List.mem_filter, List.elem_iff]
  constructor
  · rintro ⟨h1, h2⟩
    exact ⟨h1, fun hL => h2 ⟨hL, h1⟩⟩
  · rintro ⟨h1, h2⟩
    exact ⟨h1, fun hc => h2 hc.1⟩

theorem missingIds_empty {L : List Nat} {ids : List Nat}
    (hsub : ∀ i ∈ ids, i ∈ L) :
    missingIds ids (L.filter (fun j => ids.contains j)) = ∅ := by
  refine Finset.eq_empty_iff_forall_not_mem.mpr ?_
  intro i hi
  rw [missingIds_filter_char] at hi
  exact hi.2 (hsub i hi.1)

/-! ### Facts about the enumerated association inserts -/

theorem insertRecordingArtistRows_enumFrom (rid : Nat) : ∀ (ids : List Nat) (s : Nat),
    insertRecordingArtistRows rid ids s = (List.enumFrom s ids).map
      (fun ki => { recording_id := rid, artist_id := ki.2, artist_order := ki.1 }) := by
  intro ids
  induction ids with
  | nil => intro s; rfl
  | cons i rest ih =>
    intro s
    rw [List.enumFrom_cons, List.map_cons, insertRecordingArtistRows, ih (s + 1)]

theorem insertAlbumRecordingRows_enumFrom (aid : Nat) : ∀ (ids : List Nat) (s : Nat),
    insertAlbumRecordingRows aid ids s = (List.enumFrom s ids).map
      (fun ki => { album_id := aid, recording_id := ki.2, recording_order := ki.1 }) := by
  intro ids
  induction ids with
  | nil => intro s; rfl
  | cons i rest ih =>
    intro s
    rw [List.enumFrom_cons, List.map_cons, insertAlbumRecordingRows, ih (s + 1)]

theorem insertRecordingArtistRows_order_ge (rid : Nat) : ∀ (ids : List Nat) (s : Nat),
    ∀ x ∈ insertRecordingArtistRows rid ids s, s ≤ x.artist_order := by
  intro ids
  induction ids with
  | nil => intro s x hx; simp [insertRecordingArtistRows] at hx
  | cons i rest ih =>
    intro s x hx
    rw [insertRecordingArtistRows, List.mem_cons] at hx
    rcases hx with rfl | hx
    · exact le_refl s
    · exact le_trans (Nat.le_succ s) (ih (s + 1) x hx)

theorem insertRecordingArtistRows_sorted (rid : Nat) : ∀ (ids : List Nat) (s : Nat),
    (insertRecordingArtistRows rid ids s).Pairwise recArtistOrderRel := by
  intro ids
  induction ids with
  | nil => intro s; exact List.Pairwise.nil
  | cons i rest ih =>
    intro s
    rw [insertRecordingArtistRows]
    refine List.Pairwise.cons ?_ (ih (s + 1))
    intro y hy
    exact le_trans (Nat.le_succ s) (insertRecordingArtistRows_order_ge rid rest (s + 1) y hy)

theorem insertAlbumRecordingRows_order_ge (aid : Nat) : ∀ (ids : List Nat) (s : Nat),
    ∀ x ∈ insertAlbumRecordingRows aid ids s, s ≤ x.recording_order := by
  intro ids
  induction ids with
  | nil => intro s x hx; simp [insertAlbumRecordingRows] at hx
  | cons i rest ih =>
    intro s x hx
    rw [insertAlbumRecordingRows, List.mem_cons] at hx
    rcases hx with rfl | hx
    · exact le_refl s
    · exact le_trans (Nat.le_succ s) (ih (s + 1) x hx)

theorem insertAlbumRecordingRows_sorted (aid : Nat) : ∀ (ids : List Nat) (s : Nat),
    (insertAlbumRecordingRows aid ids s).Pairwise albumRecOrderRel := by
  intro ids
  induction ids with
  | nil => intro s; exact List.Pairwise.nil
  | cons i rest ih =>
    intro s
    rw [insertAlbumRecordingRows]
    refine List.Pairwise.cons ?_ (ih (s + 1))
    intro y hy
    exact le_trans (Nat.le_succ s) (insertAlbumRecordingRows_order_ge aid rest (s + 1) y hy)

theorem insertRecordingArtistRows_owner (rid : Nat) : ∀ (ids : List Nat) (s : Nat),
    ∀ x ∈ insertRecordingArtistRows rid ids s, x.recording_id = rid := by
  intro ids
  induction ids with
  | nil => intro s x hx; simp [insertRecordingArtistRows] at hx
  | cons i rest ih =>
    intro s x hx
    rw [insertRecordingArtistRows, List.mem_cons] at hx
    rcases hx with rfl | hx
    · rfl
    · exact ih (s + 1) x hx

theorem insertAlbumRecordingRows_owner (aid : Nat) : ∀ (ids : List Nat) (s : Nat),
    ∀ x ∈ insertAlbumRecordingRows aid ids s, x.album_id = aid := by
  intro ids
  induction ids with
  | nil => intro s x hx; simp [insertAlbumRecordingRows] at hx
  | cons i rest ih =>
    intro s x hx
    rw [insertAlbumRecordingRows, List.mem_cons] at hx
    rcases hx with rfl | hx
    · rfl
    · exact ih (s + 1) x hx

/-! ### Lookup facts -/

theorem find?_proj {α : Type} (f : α → Nat) : ∀ (rows : List α) (i : Nat),
    i ∈ rows.map f →
    ∃ a, rows.find? (fun x => f x == i) = some a ∧ f a = i ∧ a ∈ rows := by
  intro rows
  induction rows with
  | nil => intro i h; simp at h
  | cons b l ih =>
    intro i h
    by_cases hb : (f b == i) = true
    · refine ⟨b, ?_, by simpa using hb, by simp⟩
      rw [List.find?_cons, hb]
    · rw [List.map_cons, List.mem_cons] at h
      rcases h with h | h
      · exact absurd (by simp [h]) hb
      · obtain ⟨a, hfind, hfa, hmem⟩ := ih i h
        refine ⟨a, ?_, hfa, List.mem_cons_of_mem b hmem⟩
        rw [List.find?_cons, Bool.of_not_eq_true hb]
        exact hfind

theorem map_inj_of_nodup {α : Type} (f : α → Nat) : ∀ {rows : List α},
    (rows.map f).Nodup → ∀ x ∈ rows, ∀ y ∈ rows, f x = f y → x = y := by
  intro rows
  induction rows with
  | nil => intro _ x hx; simp at hx
  | cons a l ih =>
    intro hnd x hx y hy hf
    rw [List.map_cons, List.nodup_cons] at hnd
    rcases List.mem_cons.mp hx with hxa | hxl
    · rcases List.mem_cons.mp hy with hya | hyl
      · rw [hxa, hya]
      · have hcontra : f a ∈ l.map f := by
          rw [← hxa, hf]; exact List.mem_map_of_mem f hyl
        exact absurd hcontra hnd.1
    · rcases List.mem_cons.mp hy with hya | hyl
      · have hcontra : f a ∈ l.map f := by
          rw [← hya, ← hf]; exact List.mem_map_of_mem f hxl
        exact absurd hcontra hnd.1
      · exact ih hnd.2 x hxl y hyl hf

theorem find?_unique_of_nodup {α : Type} (f : α → Nat) {rows : List α} {cur : α}
    {k : Nat} (hfind : rows.find? (fun x => f x == k) = some cur)
    (hnd : (rows.map f).Nodup) : ∀ x ∈ rows, f x = k → x = cur := by
  intro x hx hxk
  have hcur : cur ∈ rows := List.mem_of_find?_eq_some hfind
  have hck : f cur = k := by simpa using List.find?_some hfind
  exact map_inj_of_nodup f hnd x hx cur hcur (hxk.trans hck.symm)

theorem map_replace_self {α : Type} (f : α → Nat) {rows : List α} {cur : α}
    {k : Nat} (hfind : rows.find? (fun x => f x == k) = some cur)
    (hnd : (rows.map f).Nodup) :
    rows.map (fun x => if f x == k then cur else x) = rows := by
  have h := List.map_congr_left (l := rows)
    (f := fun x => if f x == k then cur else x) (g := id) ?_
  · rw [h, List.map_id]
  · intro a ha
    by_cases hk : (f a == k) = true
    · simp only [hk, if_true, id]
      exact (find?_unique_of_nodup f hfind hnd a ha (by simpa using hk)).symm
    · simp [hk]

/-! ### Execution shapes of the handlers under explicit hypotheses -/

theorem update_recording_set_ok (db : DB) (rid : Nat) (ids : List Nat)
    (cur : Recording)
    (hfind : db.recordings.find? (fun r => r.id == rid) = some cur)
    (hlen : (fetchArtists db ids).length = ids.length) :
    update_recording db rid
        { composition_id := none, year := none, artist_ids := some ids } =
      .ok ({ db with
              recordings := db.recordings.map
                (fun r => if r.id == rid then cur else r)
              recording_artists :=
                (db.recording_artists.filter
                  (fun ra => !(ra.recording_id == rid))) ++
                  insertRecordingArtistRows rid ids 0 }, cur) := by
  have hb : ((fetchArtists db ids).length != ids.length) = false := by
    rw [hlen]; exact bne_self_eq_false _
  simp only [update_recording, hfind, hb, Bool.false_eq_true, if_false,
    Option.getD]

theorem update_recording_set_err (db : DB) (rid : Nat) (ids : List Nat)
    (cur : Recording) (p : RecordingUpdate)
    (hfind : db.recordings.find? (fun r => r.id == rid) = some cur)
    (hp : p.artist_ids = some ids)
    (hne : (fetchArtists db ids).length ≠ ids.length) :
    update_recording db rid p =
      .error (.notFoundArtists
        (missingIds ids ((fetchArtists db ids).map (fun a => a.id)))) := by
  have hb : ((fetchArtists db ids).length != ids.length) = true := bne_iff_ne.mpr hne
  simp only [update_recording, hfind, hp, hb, if_true]


theorem create_recording_ok (db : DB) (p : RecordingCreate)
    (hcomp : (db.compositions.find?
      (fun c => c.id == p.composition_id)).isNone = false)
    (hlen : (fetchArtists db p.artist_ids).length = p.artist_ids.length) :
    create_recording db p =
      .ok ({ db with
              recordings := db.recordings ++
                [{ id := db.next_recording_id
                   composition_id := p.composition_id
                   year := p.year }]
              recording_artists := db.recording_artists ++
                insertRecordingArtistRows db.next_recording_id p.artist_ids 0
              next_recording_id := db.next_recording_id + 1 },
            { id := db.next_recording_id
              composition_id := p.composition_id
              year := p.year }) := by
  have hb : ((fetchArtists db p.artist_ids).length != p.artist_ids.length) = false := by
    rw [hlen]; exact bne_self_eq_false _
  simp only [create_recording, hcomp, hb, Bool.false_eq_true, if_false]

theorem create_recording_err (db : DB) (p : RecordingCreate)
    (hcomp : (db.compositions.find?
      (fun c => c.id == p.composition_id)).isNone = false)
    (hne : (fetchArtists db p.artist_ids).length ≠ p.artist_ids.length) :
    create_recording db p =
      .error (.notFoundArtists (missingIds p.artist_ids
        ((fetchArtists db p.artist_ids).map (fun a => a.id)))) := by
  have hb : ((fetchArtists db p.artist_ids).length != p.artist_ids.length) = true :=
    bne_iff_ne.mpr hne
  simp only [create_recording, hcomp, hb, Bool.false_eq_true, if_false, if_true]

theorem create_recording_err_composition (db : DB) (p : RecordingCreate)
    (hcomp : (db.compositions.find?
      (fun c => c.id == p.composition_id)).isNone = true) :
    create_recording db p = .error (.notFoundComposition p.composition_id) := by
  simp only [create_recording, hcomp, if_true]

theorem update_album_set_ok (db : DB) (aid : Nat) (ids : List Nat) (cur : Album)
    (hfind : db.albums.find? (fun a => a.id == aid) = some cur)
    (hlen : (fetchRecordings db ids).length = ids.length) :
    update_album db aid
        { album_type := none, discogs_url := none, goclassic_url := none
          memo := none, recording_ids := some ids, image_urls := none
          primary_image_index := none, custom_urls := none } =
      .ok ({ db with
              albums := db.albums.map (fun a => if a.id == aid then cur else a)
              album_recordings :=
                (db.album_recordings.filter (fun ar => !(ar.album_id == aid))) ++
                  insertAlbumRecordingRows aid ids 0 }, cur) := by
  have hb : ((fetchRecordings db ids).length != ids.length) = false := by
    rw [hlen]; exact bne_self_eq_false _
  simp only [update_album, hfind, hb, Bool.false_eq_true, if_false, Option.getD]

theorem create_album_err (db : DB) (p : AlbumCreate)
    (hne : (fetchRecordings db p.recording_ids).length ≠ p.recording_ids.length)
    (hnonempty : p.recording_ids.isEmpty = false) :
    create_album db p =
      .error (.notFoundRecordings (missingIds p.recording_ids
        ((fetchRecordings db p.recording_ids).map (fun r => r.id)))) := by
  have hb : ((fetchRecordings db p.recording_ids).length != p.recording_ids.length)
      = true := bne_iff_ne.mpr hne
  simp only [create_album, hnonempty, hb, Bool.false_eq_true, if_false, if_true]

theorem create_composition_ok (db : DB) (p : CompositionCreate) (comp : Composer)
    (hfindc : db.composers.find? (fun c => c.id == p.composer_id) = some comp)
    (htnone : db.compositions.find?
      (fun c => c.composer_id == p.composer_id && c.title == p.title) = none)
    (hcond : (truthyStr p.catalog_number && (db.compositions.find?
      (fun c => c.composer_id == p.composer_id &&
        c.catalog_number == p.catalog_number)).isSome) = false) :
    create_composition db p = .ok
      ({ db with
          compositions := db.compositions ++
            [{ id := db.next_composition_id, composer_id := p.composer_id
               catalog_number := p.catalog_number
               sort_order := extract_sort_order p.catalog_number
               title := p.title }]
          next_composition_id := db.next_composition_id + 1 },
        { id := db.next_composition_id, composer_id := p.composer_id
          catalog_number := p.catalog_number
          sort_order := extract_sort_order p.catalog_number
          title := p.title }) := by
  simp only [create_composition, hfindc, htnone, hcond, Bool.false_eq_true,
    if_false]

theorem update_composition_self_ok (db : DB) (cur : Composition)
    (hfind : db.compositions.find? (fun c => c.id == cur.id) = some cur)
    (htnone : db.compositions.find?
      (fun c => c.composer_id == cur.composer_id && c.title == cur.title &&
        !(c.id == cur.id)) = none)
    (hcond : (truthyStr cur.catalog_number && (db.compositions.find?
      (fun c => c.composer_id == cur.composer_id &&
        c.catalog_number == cur.catalog_number && !(c.id == cur.id))).isSome)
      = false) :
    update_composition db cur.id
        { composer_id := none, catalog_number := some cur.catalog_number,
          title := some cur.title } = .ok
      ({ db with
          compositions := db.compositions.map (fun c =>
            if c.id == cur.id then
              { id := cur.id, composer_id := cur.composer_id
                catalog_number := cur.catalog_number
                sort_order := extract_sort_order cur.catalog_number
                title := cur.title }
            else c) },
        { id := cur.id, composer_id := cur.composer_id
          catalog_number := cur.catalog_number
          sort_order := extract_sort_order cur.catalog_number
          title := cur.title }) := by
  simp only [update_composition, hfind, Option.getD_none, Option.getD_some,
    htnone, Option.isSome_none, hcond, Bool.false_eq_true, if_false]

theorem delete_composer_ok (db : DB) (cid : Nat) (comp : Composer)
    (hfindc : db.composers.find? (fun c => c.id == cid) = some comp) :
    delete_composer db cid = .ok
      { db with
          composers := db.composers.filter (fun c => !(c.id == cid))
          compositions := db.compositions.filter
            (fun c => !(c.composer_id == cid))
          recordings := db.recordings.filter (fun r =>
            !(((db.compositions.filter (fun c => c.composer_id == cid)).map
              (fun c => c.id)).contains r.composition_id))
          recording_artists := db.recording_artists.filter (fun ra =>
            !(((db.recordings.filter (fun r =>
                ((db.compositions.filter (fun c => c.composer_id == cid)).map
                  (fun c => c.id)).contains r.composition_id)).map
              (fun r => r.id)).contains ra.recording_id))
          album_recordings := db.album_recordings.filter (fun ar =>
            !(((db.recordings.filter (fun r =>
                ((db.compositions.filter (fun c => c.composer_id == cid)).map
                  (fun c => c.id)).contains r.composition_id)).map
              (fun r => r.id)).contains ar.recording_id)) } := by
  simp only [delete_composer, hfindc]

/-! ### Association-table filter identities -/

theorem ra_filter_owner_of_not_owner (old : List RecordingArtist) (rid : Nat) :
    (old.filter (fun ra => !(ra.recording_id == rid))).filter
      (fun ra => ra.recording_id == rid) = [] := by
  rw [List.filter_filter]
  refine List.filter_eq_nil_iff.mpr ?_
  intro a _
  by_cases h : (a.recording_id == rid) = true <;> simp [h]

theorem ra_filter_not_owner_idem (old : List RecordingArtist) (rid : Nat) :
    (old.filter (fun ra => !(ra.recording_id == rid))).filter
        (fun ra => !(ra.recording_id == rid)) =
      old.filter (fun ra => !(ra.recording_id == rid)) := by
  rw [List.filter_filter]
  exact List.filter_congr (fun a _ => Bool.and_self _)

theorem ra_filter_owner_insert (rid : Nat) (ids : List Nat) (s : Nat) :
    (insertRecordingArtistRows rid ids s).filter
      (fun ra => ra.recording_id == rid) = insertRecordingArtistRows rid ids s := by
  refine List.filter_eq_self.mpr ?_
  intro a ha
  rw [insertRecordingArtistRows_owner rid ids s a ha]
  exact beq_self_eq_true rid

theorem ra_filter_not_owner_insert (rid : Nat) (ids : List Nat) (s : Nat) :
    (insertRecordingArtistRows rid ids s).filter
      (fun ra => !(ra.recording_id == rid)) = [] := by
  refine List.filter_eq_nil_iff.mpr ?_
  intro a ha
  rw [insertRecordingArtistRows_owner rid ids s a ha]
  simp

theorem ar_filter_owner_of_not_owner (old : List AlbumRecording) (aid : Nat) :
    (old.filter (fun ar => !(ar.album_id == aid))).filter
      (fun ar => ar.album_id == aid) = [] := by
  rw [List.filter_filter]
  refine List.filter_eq_nil_iff.mpr ?_
  intro a _
  by_cases h : (a.album_id == aid) = true <;> simp [h]

theorem ar_filter_not_owner_idem (old : List AlbumRecording) (aid : Nat) :
    (old.filter (fun ar => !(ar.album_id == aid))).filter
        (fun ar => !(ar.album_id == aid)) =
      old.filter (fun ar => !(ar.album_id == aid)) := by
  rw [List.filter_filter]
  exact List.filter_congr (fun a _ => Bool.and_self _)

theorem ar_filter_owner_insert (aid : Nat) (ids : List Nat) (s : Nat) :
    (insertAlbumRecordingRows aid ids s).filter
      (fun ar => ar.album_id == aid) = insertAlbumRecordingRows aid ids s := by
  refine List.filter_eq_self.mpr ?_
  intro a ha
  rw [insertAlbumRecordingRows_owner aid ids s a ha]
  exact beq_self_eq_true aid

theorem ar_filter_not_owner_insert (aid : Nat) (ids : List Nat) (s : Nat) :
    (insertAlbumRecordingRows aid ids s).filter
      (fun ar => !(ar.album_id == aid)) = [] := by
  refine List.filter_eq_nil_iff.mpr ?_
  intro a ha
  rw [insertAlbumRecordingRows_owner aid ids s a ha]
  simp

/-! ### Read-back of a freshly written ordered association -/

theorem filterMap_find_sub {α β : Type} (rows : List α) (p : β → α → Bool)
    (l : List β) : ∀ a ∈ l.filterMap (fun x => rows.find? (p x)), a ∈ rows := by
  intro a ha
  rw [List.mem_filterMap] at ha
  obtain ⟨x, _, hfind⟩ := ha
  exact List.mem_of_find?_eq_some hfind

theorem ra_readback_map_id (arts : List Artist) (rid : Nat) :
    ∀ (ids : List Nat) (s : Nat),
    (∀ i ∈ ids, i ∈ arts.map (fun a => a.id)) →
    ((insertRecordingArtistRows rid ids s).filterMap
        (fun ra => arts.find? (fun a => a.id == ra.artist_id))).map
      (fun a => a.id) = ids := by
  intro ids
  induction ids with
  | nil => intro s _; rfl
  | cons i rest ih =>
    intro s h
    obtain ⟨a, hfind, hfa, _⟩ :=
      find?_proj (fun a => a.id) arts i (h i (by simp))
    rw [insertRecordingArtistRows, List.filterMap_cons]
    simp only [hfind, List.map_cons]
    rw [hfa, ih (s + 1) (fun j hj => h j (List.mem_cons_of_mem i hj))]

theorem ar_readback_map_id (recs : List Recording) (aid : Nat) :
    ∀ (ids : List Nat) (s : Nat),
    (∀ i ∈ ids, i ∈ recs.map (fun r => r.id)) →
    ((insertAlbumRecordingRows aid ids s).filterMap
        (fun ar => recs.find? (fun r => r.id == ar.recording_id))).map
      (fun r => r.id) = ids := by
  intro ids
  induction ids with
  | nil => intro s _; rfl
  | cons i rest ih =>
    intro s h
    obtain ⟨r, hfind, hfr, _⟩ :=
      find?_proj (fun r => r.id) recs i (h i (by simp))
    rw [insertAlbumRecordingRows, List.filterMap_cons]
    simp only [hfind, List.map_cons]
    rw [hfr, ih (s + 1) (fun j hj => h j (List.mem_cons_of_mem i hj))]

/-! ### Sort-key extraction helpers -/

theorem firstDigitRun_none (l : List Char)
    (h : ∀ c ∈ l, c.isDigit = false) : firstDigitRun l = none := by
  induction l with
  | nil => rfl
  | cons c rest ih =>
    rw [firstDigitRun, h c (by simp), if_neg (by simp)]
    exact ih (fun d hd => h d (List.mem_cons_of_mem c hd))

theorem firstDigitRun_skip (p x : List Char)
    (hp : ∀ c ∈ p, c.isDigit = false) :
    firstDigitRun (p ++ x) = firstDigitRun x := by
  induction p with
  | nil => rfl
  | cons c rest ih =>
    rw [List.cons_append, firstDigitRun, hp c (by simp), if_neg (by simp)]
    exact ih (fun d hd => hp d (List.mem_cons_of_mem c hd))

theorem takeWhile_digits_append (r q : List Char)
    (hr : ∀ c ∈ r, c.isDigit = true)
    (hq : ∀ c ∈ q.take 1, c.isDigit = false) :
    (r ++ q).takeWhile (fun d => d.isDigit) = r := by
  induction r with
  | nil =>
    cases q with
    | nil => rfl
    | cons c q' =>
      rw [List.nil_append, List.takeWhile_cons, hq c (by simp)]
      rfl
  | cons c r' ih =>
    rw [List.cons_append, List.takeWhile_cons, hr c (by simp)]
    simp only [if_true]
    rw [ih (fun d hd => hr d (List.mem_cons_of_mem c hd))]

theorem firstDigitRun_decomp (p r q : List Char)
    (hp : ∀ c ∈ p, c.isDigit = false) (hrne : r ≠ [])
    (hr : ∀ c ∈ r, c.isDigit = true)
    (hq : ∀ c ∈ q.take 1, c.isDigit = false) :
    firstDigitRun (p ++ r ++ q) = some r := by
  rw [List.append_assoc, firstDigitRun_skip p (r ++ q) hp]
  cases r with
  | nil => exact absurd rfl hrne
  | cons c r' =>
    rw [List.cons_append, firstDigitRun, hr c (by simp)]
    simp only [if_true]
    rw [takeWhile_digits_append r' q (fun d hd => hr d (List.mem_cons_of_mem c hd)) hq]

theorem digitsToNat_foldl_aux : ∀ (r : List Char) (acc : Nat),
    r.foldl (fun n c => 10 * n + (c.toNat - 48)) acc =
      acc * 10 ^ r.length +
        Nat.ofDigits 10 ((r.map (fun c => c.toNat - 48)).reverse) := by
  intro r
  induction r with
  | nil =>
    intro acc
    simp [Nat.ofDigits_nil]
  | cons c r' ih =>
    intro acc
    rw [List.foldl_cons, ih (10 * acc + (c.toNat - 48)), List.map_cons,
      List.reverse_cons, Nat.ofDigits_append]
    simp only [List.length_cons, List.length_reverse, List.length_map,
      Nat.ofDigits_cons, Nat.ofDigits_nil]
    ring

/-- The handler's left-to-right accumulator parse of a digit run equals the
standard positional value of its digits. -/
theorem digitsToNat_eq_ofDigits (r : List Char) :
    digitsToNat r =
      Nat.ofDigits 10 ((r.map (fun c => c.toNat - 48)).reverse) := by
  rw [digitsToNat, digitsToNat_foldl_aux r 0]
  simp

/-! ### Claim theorems -/

/-- C4: the sort-key extractor returns the integer value of the first maximal
run of decimal digits for every catalog number containing a digit, and no
sort key for an absent, empty or digit-free input.  A string with a digit is
decomposed as a digit-free prefix, a nonempty maximal digit run, and a suffix
not starting with a digit; the extracted key is the positional base-10 value
of that run. -/
theorem C4_sort_key_extraction :
    (extract_sort_order none = none) ∧
    (extract_sort_order (some "") = none) ∧
    (∀ s : String, (∀ c ∈ s.data, c.isDigit = false) →
      extract_sort_order (some s) = none) ∧
    (∀ p r q : List Char, (∀ c ∈ p, c.isDigit = false) → r ≠ [] →
      (∀ c ∈ r, c.isDigit = true) → (∀ c ∈ q.take 1, c.isDigit = false) →
      extract_sort_order (some (String.mk (p ++ r ++ q))) =
        some (Int.ofNat (Nat.ofDigits 10
          ((r.map (fun c => c.toNat - 48)).reverse)))) := by
  refine ⟨rfl, rfl, ?_, ?_⟩
  · intro s h
    simp only [extract_sort_order]
    by_cases hs : s.data = []
    · rw [if_pos hs]
    · rw [if_neg hs, firstDigitRun_none s.data h]
  · intro p r q hp hrne hr hq
    have hne : ¬ (p ++ r ++ q = []) := by
      intro hcontra
      rcases List.append_eq_nil.mp hcontra with ⟨hpr, _⟩
      exact hrne (List.append_eq_nil.mp hpr).2
    simp only [extract_sort_order]
    rw [if_neg hne, firstDigitRun_decomp p r q hp hrne hr hq]
    simp only [digitsToNat_eq_ofDigits]

/-- Witness for C4 at concrete inputs: the catalog number built from
prefix `BWV `, digit run `1060` and suffix `a-2` extracts the value of the
run, and a digit-free catalog number extracts nothing. -/
theorem C4_sort_key_extraction_witness :
    (extract_sort_order (some (String.mk ("BWV ".data ++ "1060".data ++ "a-2".data))) =
      some (Int.ofNat (Nat.ofDigits 10
        (("1060".data.map (fun c => c.toNat - 48)).reverse)))) ∧
    extract_sort_order (some "Anh.") = none :=
  ⟨C4_sort_key_extraction.2.2.2 "BWV ".data "1060".data "a-2".data
      (by decide) (by decide) (by decide) (by decide),
    C4_sort_key_extraction.2.2.1 "Anh." (by decide)⟩

/-- C10: a numeric equality filter given the value `0`, and an empty-string
`album_type` filter, are not applied at all: the page equals the unfiltered
listing.  Python truthiness guards every filter application. -/
theorem C10_falsy_filters_ignored :
    (∀ db skip limit search,
      read_compositions db skip limit (some 0) search =
        read_compositions db skip limit none search) ∧
    (∀ db skip limit composer_id artist_id,
      read_recordings db skip limit (some 0) composer_id artist_id =
        read_recordings db skip limit none composer_id artist_id) ∧
    (∀ db skip limit composition_id artist_id,
      read_recordings db skip limit composition_id (some 0) artist_id =
        read_recordings db skip limit composition_id none artist_id) ∧
    (∀ db skip limit composition_id composer_id,
      read_recordings db skip limit composition_id composer_id (some 0) =
        read_recordings db skip limit composition_id composer_id none) ∧
    (∀ db skip limit,
      read_albums db skip limit (some "") = read_albums db skip limit none) :=
  ⟨fun _ _ _ _ => rfl, fun _ _ _ _ _ => rfl, fun _ _ _ _ _ => rfl,
    fun _ _ _ _ _ => rfl, fun _ _ _ => rfl⟩

/-- C8: after a successful create, and after a successful update whose
payload mentions `catalog_number`, the stored row's `sort_order` is exactly
the sort-key extraction of the new catalog number.  The payload types
(mirroring `CompositionCreate` and `CompositionUpdate` in `schemas.py`)
contain no `sort_order` field, so a caller can never set it directly. -/
theorem C8_sort_order_derived :
    (∀ db (p : CompositionCreate) db' row,
      create_composition db p = .ok (db', row) →
      row.sort_order = extract_sort_order p.catalog_number ∧
        row ∈ db'.compositions) ∧
    (∀ db cid (p : CompositionUpdate) db' row cv,
      p.catalog_number = some cv →
      update_composition db cid p = .ok (db', row) →
      row.sort_order = extract_sort_order cv ∧ row ∈ db'.compositions) := by
  constructor
  · intro db p db' row h
    simp only [create_composition] at h
    split at h
    · exact Except.noConfusion h
    · split at h
      · exact Except.noConfusion h
      · split at h
        · exact Except.noConfusion h
        · injection h with hpair
          rw [Prod.mk.injEq] at hpair
          obtain ⟨hdb, hrow⟩ := hpair
          subst hdb
          subst hrow
          exact ⟨rfl, List.mem_append_right _ (List.mem_singleton.mpr rfl)⟩
  · intro db cid p db' row cv hcv h
    simp only [update_composition, hcv] at h
    split at h
    · exact Except.noConfusion h
    · rename_i cur hfind
      split at h
      · exact Except.noConfusion h
      · split at h
        · exact Except.noConfusion h
        · split at h
          · exact Except.noConfusion h
          · injection h with hpair
            rw [Prod.mk.injEq] at hpair
            obtain ⟨hdb, hrow⟩ := hpair
            subst hdb
            subst hrow
            refine ⟨rfl, ?_⟩
            have hcur : (cur.id == cid) = true := by
              simpa using List.find?_some hfind
            refine List.mem_map.mpr ⟨cur, List.mem_of_find?_eq_some hfind, ?_⟩
            simp [hcur]

/-- Witness for C8: a concrete create stores `sort_order` 525 for catalog
number `K. 525`, and a concrete update mentioning the catalog number
recomputes it. -/
theorem C8_sort_order_derived_witness :
    (rowW8.sort_order = extract_sort_order (some "K. 525") ∧
      rowW8 ∈ dbW8c.compositions) ∧
    (rowU8.sort_order = extract_sort_order (some "K. 525a") ∧
      rowU8 ∈ dbW8u.compositions) :=
  ⟨C8_sort_order_derived.1 dbW8
      { composer_id := 1, catalog_number := some "K. 525",
        title := "Eine kleine Nachtmusik" } dbW8c rowW8 (by decide),
    C8_sort_order_derived.2 dbW8c 1
      { composer_id := none, catalog_number := some (some "K. 525a"),
        title := none } dbW8u rowU8 (some "K. 525a") rfl (by decide)⟩

/-- C5 (amended): every composer page is ordered ascending by birth year with
missing birth years last and ties broken by ascending name, while every
artist page is ordered ascending by name alone. -/
theorem C5_listing_order :
    (∀ db skip limit search, (read_composers db skip limit search).Pairwise
      (fun a b => specBirthNameLe a.birth_year b.birth_year a.name b.name = true)) ∧
    (∀ db skip limit search,
      ((read_artists db skip limit search).map Prod.fst).Pairwise
        (fun a b => strLe a.name b.name = true)) := by
  constructor
  · intro db skip limit search
    have aux : ∀ l : List Composer,
        (((List.insertionSort composerRel l).drop skip).take limit).Pairwise
          (fun a b => specBirthNameLe a.birth_year b.birth_year a.name b.name = true) := by
      intro l
      refine (pairwise_page (List.sorted_insertionSort composerRel l) skip limit).imp ?_
      intro a b hab
      rw [← composerOrderLe_iff_spec]
      exact hab
    exact aux _
  · intro db skip limit search
    have aux : ∀ l : List Artist,
        ((((List.insertionSort artistRel l).drop skip).take limit).map
            (fun a => (a, artistRecordingCount db a.id))).map Prod.fst |>.Pairwise
          (fun a b => strLe a.name b.name = true) := by
      intro l
      rw [List.map_map]
      have hid : ((((List.insertionSort artistRel l).drop skip).take limit).map
          (Prod.fst ∘ fun a => (a, artistRecordingCount db a.id))) =
          (((List.insertionSort artistRel l).drop skip).take limit) :=
        List.map_id _
      rw [hid]
      exact pairwise_page (List.sorted_insertionSort artistRel l) skip limit
    exact aux _

/-- Counterexample to C5 as stated: the artist listing is sorted by name
only, so the artist with no birth year (name `Alpha`) is returned before the
1900-born artist (name `Zeta`), violating the claimed birth-year-first
order. -/
theorem C5_listing_order_counterexample :
    ¬ (((read_artists dbC5 0 100 none).map Prod.fst).Pairwise
      (fun a b => specBirthNameLe a.birth_year b.birth_year a.name b.name = true)) := by
  decide

/-- The shared witness store satisfies the schema invariants. -/
theorem wfW : WF dbW := by
  refine ⟨?_, ?_, ?_, ?_, ?_, ?_, ?_, ?_, ?_, ?_, ?_, ?_⟩ <;> decide

/-- C3: creating a recording (or album) with a missing referenced id fails
with a NotFound error and leaves the store unchanged (the handler raises
before inserting anything, so no recording/album row and no association row
is persisted).  When the referenced composition exists, the error enumerates
exactly the artist ids without a stored row; a missing composition id is
itself reported as the missing referenced id. -/
theorem C3_create_missing_refs :
    (∀ db (p : RecordingCreate), WF db →
      p.composition_id ∈ compositionIds db →
      (∃ i ∈ p.artist_ids, i ∉ artistIds db) →
      ∃ M : Finset Nat, create_recording db p = .error (.notFoundArtists M) ∧
        M.Nonempty ∧ (∀ i, i ∈ M ↔ i ∈ p.artist_ids ∧ i ∉ artistIds db)) ∧
    (∀ db (p : RecordingCreate), p.composition_id ∉ compositionIds db →
      create_recording db p = .error (.notFoundComposition p.composition_id)) ∧
    (∀ db (p : AlbumCreate), WF db →
      (∃ i ∈ p.recording_ids, i ∉ recordingIds db) →
      ∃ M : Finset Nat, create_album db p = .error (.notFoundRecordings M) ∧
        M.Nonempty ∧ (∀ i, i ∈ M ↔ i ∈ p.recording_ids ∧ i ∉ recordingIds db)) := by
  refine ⟨?_, ?_, ?_⟩
  · intro db p wf hcomp hmiss
    obtain ⟨c0, hfindc, _, _⟩ :=
      find?_proj (fun c => c.id) db.compositions p.composition_id
        (show p.composition_id ∈ db.compositions.map (fun c => c.id) from hcomp)
    have hcompN : (db.compositions.find?
        (fun c => c.id == p.composition_id)).isNone = false := by
      rw [hfindc]; rfl
    have hne : (fetchArtists db p.artist_ids).length ≠ p.artist_ids.length := by
      rw [fetchArtists_length]
      exact length_filter_contains_ne_of_missing wf.artists_nodup hmiss
    refine ⟨_, create_recording_err db p hcompN hne, ?_, ?_⟩
    · obtain ⟨i, hi, hni⟩ := hmiss
      refine ⟨i, ?_⟩
      rw [fetchArtists_map_id, missingIds_filter_char]
      exact ⟨hi, hni⟩
    · intro i
      rw [fetchArtists_map_id, missingIds_filter_char]
  · intro db p hnot
    apply create_recording_err_composition
    have hnone : db.compositions.find? (fun c => c.id == p.composition_id) = none := by
      rw [List.find?_eq_none]
      intro c hc hbeq
      refine hnot ?_
      have : c.id = p.composition_id := by simpa using hbeq
      rw [← this]
      exact List.mem_map_of_mem _ hc
    rw [hnone]; rfl
  · intro db p wf hmiss
    have hne : (fetchRecordings db p.recording_ids).length ≠
        p.recording_ids.length := by
      rw [fetchRecordings_length]
      exact length_filter_contains_ne_of_missing wf.recordings_nodup hmiss
    have hnonempty : p.recording_ids.isEmpty = false := by
      obtain ⟨i, hi, _⟩ := hmiss
      simpa using List.ne_nil_of_mem hi
    refine ⟨_, create_album_err db p hne hnonempty, ?_, ?_⟩
    · obtain ⟨i, hi, hni⟩ := hmiss
      refine ⟨i, ?_⟩
      rw [fetchRecordings_map_id, missingIds_filter_char]
      exact ⟨hi, hni⟩
    · intro i
      rw [fetchRecordings_map_id, missingIds_filter_char]

/-- Witness for C3: in the shared store, creating a recording referencing the
existing artist 2 and the absent artist 9 fails with the enumerated missing
set, as does creating an album referencing the absent recording 5. -/
theorem C3_create_missing_refs_witness :
    (∃ M : Finset Nat,
      create_recording dbW
          { composition_id := 1, year := none, artist_ids := [2, 9] } =
        .error (.notFoundArtists M) ∧ M.Nonempty ∧
        (∀ i, i ∈ M ↔ i ∈ [2, 9] ∧ i ∉ artistIds dbW)) ∧
    (∃ M : Finset Nat,
      create_album dbW
          { album_type := "LP", discogs_url := none, goclassic_url := none,
            memo := none, recording_ids := [5], image_urls := [],
            primary_image_index := none, custom_urls := [] } =
        .error (.notFoundRecordings M) ∧ M.Nonempty ∧
        (∀ i, i ∈ M ↔ i ∈ [5] ∧ i ∉ recordingIds dbW)) :=
  ⟨C3_create_missing_refs.1 dbW
      { composition_id := 1, year := none, artist_ids := [2, 9] } wfW
      (by decide) ⟨9, by decide, by decide⟩,
    C3_create_missing_refs.2.2 dbW
      { album_type := "LP", discogs_url := none, goclassic_url := none,
        memo := none, recording_ids := [5], image_urls := [],
        primary_image_index := none, custom_urls := [] } wfW
      ⟨5, by decide, by decide⟩⟩

/-- C9: an id list containing a duplicate is rejected through the NotFound
branch with an empty enumerated missing set, because existence is checked by
comparing the count of distinct fetched rows with the input length; the
error is raised before any association row is written. -/
theorem C9_duplicate_ids_rejected :
    (∀ db (p : RecordingCreate), WF db →
      p.composition_id ∈ compositionIds db →
      ¬ p.artist_ids.Nodup → (∀ i ∈ p.artist_ids, i ∈ artistIds db) →
      create_recording db p = .error (.notFoundArtists ∅)) ∧
    (∀ db rid ids (p : RecordingUpdate), WF db → rid ∈ recordingIds db →
      p.artist_ids = some ids → ¬ ids.Nodup →
      (∀ i ∈ ids, i ∈ artistIds db) →
      update_recording db rid p = .error (.notFoundArtists ∅)) ∧
    (∀ db (p : AlbumCreate), WF db →
      ¬ p.recording_ids.Nodup → (∀ i ∈ p.recording_ids, i ∈ recordingIds db) →
      create_album db p = .error (.notFoundRecordings ∅)) := by
  refine ⟨?_, ?_, ?_⟩
  · intro db p wf hcomp hdup hsub
    obtain ⟨c0, hfindc, _, _⟩ :=
      find?_proj (fun c => c.id) db.compositions p.composition_id
        (show p.composition_id ∈ db.compositions.map (fun c => c.id) from hcomp)
    have hcompN : (db.compositions.find?
        (fun c => c.id == p.composition_id)).isNone = false := by
      rw [hfindc]; rfl
    have hne : (fetchArtists db p.artist_ids).length ≠ p.artist_ids.length := by
      rw [fetchArtists_length]
      exact length_filter_contains_ne_of_dup wf.artists_nodup hsub hdup
    rw [create_recording_err db p hcompN hne, fetchArtists_map_id,
      missingIds_empty hsub]
  · intro db rid ids p wf hrid hp hdup hsub
    obtain ⟨cur, hfind, _, _⟩ :=
      find?_proj (fun r => r.id) db.recordings rid
        (show rid ∈ db.recordings.map (fun r => r.id) from hrid)
    have hne : (fetchArtists db ids).length ≠ ids.length := by
      rw [fetchArtists_length]
      exact length_filter_contains_ne_of_dup wf.artists_nodup hsub hdup
    rw [update_recording_set_err db rid ids cur p hfind hp hne,
      fetchArtists_map_id, missingIds_empty hsub]
  · intro db p wf hdup hsub
    have hne : (fetchRecordings db p.recording_ids).length ≠
        p.recording_ids.length := by
      rw [fetchRecordings_length]
      exact length_filter_contains_ne_of_dup wf.recordings_nodup hsub hdup
    have hnonempty : p.recording_ids.isEmpty = false := by
      have : p.recording_ids ≠ [] := by
        intro he
        rw [he] at hdup
        exact hdup List.nodup_nil
      simpa using this
    rw [create_album_err db p hne hnonempty, fetchRecordings_map_id,
      missingIds_empty hsub]

/-- Witness for C9: in the shared store, setting the duplicate artist list
`[1, 1]` on recording 1 is rejected with an empty missing set, creating a
recording with artists `[2, 2]` likewise, and so is an album with the
duplicate recording list `[1, 1]`. -/
theorem C9_duplicate_ids_rejected_witness :
    create_recording dbW
        { composition_id := 1, year := none, artist_ids := [2, 2] } =
      .error (.notFoundArtists ∅) ∧
    update_recording dbW 1
        { composition_id := none, year := none, artist_ids := some [1, 1] } =
      .error (.notFoundArtists ∅) ∧
    create_album dbW
        { album_type := "LP", discogs_url := none, goclassic_url := none,
          memo := none, recording_ids := [1, 1], image_urls := [],
          primary_image_index := none, custom_urls := [] } =
      .error (.notFoundRecordings ∅) :=
  ⟨C9_duplicate_ids_rejected.1 dbW
      { composition_id := 1, year := none, artist_ids := [2, 2] } wfW
      (by decide) (by decide) (by decide),
    C9_duplicate_ids_rejected.2.1 dbW 1 [1, 1]
      { composition_id := none, year := none, artist_ids := some [1, 1] } wfW
      (by decide) rfl (by decide) (by decide),
    C9_duplicate_ids_rejected.2.2 dbW
      { album_type := "LP", discogs_url := none, goclassic_url := none,
        memo := none, recording_ids := [1, 1], image_urls := [],
        primary_image_index := none, custom_urls := [] } wfW
      (by decide) (by decide)⟩

/-- C6: composition uniqueness is scoped to the owning composer, and the
update-time conflict searches exclude the row being updated.  Conjuncts:
create with a duplicate (composer, title) fails with the title conflict;
create with a truthy duplicate (composer, catalog_number) fails with the
catalog conflict; create succeeds whenever neither pair clashes within the
target composer (so the same title or catalog under a different composer is
allowed); an update resubmitting a row's own title and catalog number never
conflicts with itself. -/
theorem C6_composition_uniqueness :
    (∀ db (p : CompositionCreate), p.composer_id ∈ composerIds db →
      (∃ c ∈ db.compositions, c.composer_id = p.composer_id ∧ c.title = p.title) →
      create_composition db p = .error (.conflictTitle p.title)) ∧
    (∀ db (p : CompositionCreate) s, p.composer_id ∈ composerIds db →
      (∀ c ∈ db.compositions, c.composer_id = p.composer_id → c.title ≠ p.title) →
      p.catalog_number = some s → s ≠ "" →
      (∃ c ∈ db.compositions, c.composer_id = p.composer_id ∧
        c.catalog_number = some s) →
      create_composition db p = .error (.conflictCatalog s)) ∧
    (∀ db (p : CompositionCreate), p.composer_id ∈ composerIds db →
      (∀ c ∈ db.compositions, c.composer_id = p.composer_id → c.title ≠ p.title) →
      (∀ c ∈ db.compositions, c.composer_id = p.composer_id →
        truthyStr p.catalog_number = true →
        c.catalog_number ≠ p.catalog_number) →
      ∃ db' row, create_composition db p = .ok (db', row)) ∧
    (∀ db (cur : Composition), WF db → cur ∈ db.compositions →
      ∃ db' row, update_composition db cur.id
          { composer_id := none, catalog_number := some cur.catalog_number,
            title := some cur.title } = .ok (db', row)) := by
  refine ⟨?_, ?_, ?_, ?_⟩
  · intro db p hcomposer hconf
    obtain ⟨comp, hfindc, _, _⟩ :=
      find?_proj (fun c => c.id) db.composers p.composer_id
        (show p.composer_id ∈ db.composers.map (fun c => c.id) from hcomposer)
    obtain ⟨c, hcmem, hcid, hctitle⟩ := hconf
    obtain ⟨c0, hc0⟩ := Option.isSome_iff_exists.mp
      (show (db.compositions.find? (fun c =>
          c.composer_id == p.composer_id && c.title == p.title)).isSome = true
        from List.find?_isSome.mpr ⟨c, hcmem, by rw [hcid, hctitle]; simp⟩)
    simp only [create_composition, hfindc, hc0]
  · intro db p s hcomposer hnotitle hps hs hconf
    obtain ⟨comp, hfindc, _, _⟩ :=
      find?_proj (fun c => c.id) db.composers p.composer_id
        (show p.composer_id ∈ db.composers.map (fun c => c.id) from hcomposer)
    have htnone : db.compositions.find?
        (fun c => c.composer_id == p.composer_id && c.title == p.title) = none := by
      rw [List.find?_eq_none]
      intro c hc hp
      rw [Bool.and_eq_true, beq_iff_eq, beq_iff_eq] at hp
      exact hnotitle c hc hp.1 hp.2
    obtain ⟨c, hcmem, hcid, hccat⟩ := hconf
    obtain ⟨c0, hc0⟩ := Option.isSome_iff_exists.mp
      (show (db.compositions.find? (fun c =>
          c.composer_id == p.composer_id && c.catalog_number == some s)).isSome
          = true
        from List.find?_isSome.mpr ⟨c, hcmem, by rw [hcid, hccat]; simp⟩)
    have hsf : (s == "") = false := beq_eq_false_iff_ne.mpr hs
    have hcond : (truthyStr (some s) && (db.compositions.find?
        (fun c => c.composer_id == p.composer_id &&
          c.catalog_number == some s)).isSome) = true := by
      rw [hc0]
      simp [truthyStr, hsf]
    simp only [create_composition, hfindc, htnone, hps, hcond, if_true,
      Option.getD_some]
  · intro db p hcomposer hnotitle hnocat
    obtain ⟨comp, hfindc, _, _⟩ :=
      find?_proj (fun c => c.id) db.composers p.composer_id
        (show p.composer_id ∈ db.composers.map (fun c => c.id) from hcomposer)
    have htnone : db.compositions.find?
        (fun c => c.composer_id == p.composer_id && c.title == p.title) = none := by
      rw [List.find?_eq_none]
      intro c hc hp
      rw [Bool.and_eq_true, beq_iff_eq, beq_iff_eq] at hp
      exact hnotitle c hc hp.1 hp.2
    have hcond : (truthyStr p.catalog_number && (db.compositions.find?
        (fun c => c.composer_id == p.composer_id &&
          c.catalog_number == p.catalog_number)).isSome) = false := by
      cases ht : truthyStr p.catalog_number with
      | false => rfl
      | true =>
        have hcnone : db.compositions.find?
            (fun c => c.composer_id == p.composer_id &&
              c.catalog_number == p.catalog_number) = none := by
          rw [List.find?_eq_none]
          intro c hc hp
          rw [Bool.and_eq_true, beq_iff_eq, beq_iff_eq] at hp
          exact hnocat c hc hp.1 ht hp.2
        rw [hcnone]
        rfl
    exact ⟨_, _, create_composition_ok db p comp hfindc htnone hcond⟩
  · intro db cur wf hcur
    obtain ⟨a, hfind, haid, hamem⟩ :=
      find?_proj (fun c => c.id) db.compositions cur.id
        (List.mem_map_of_mem _ hcur)
    have hacur : a = cur :=
      map_inj_of_nodup _ wf.compositions_nodup a hamem cur hcur haid
    rw [hacur] at hfind
    have htnone : db.compositions.find?
        (fun c => c.composer_id == cur.composer_id && c.title == cur.title &&
          !(c.id == cur.id)) = none := by
      rw [List.find?_eq_none]
      intro c hc hp
      rw [Bool.and_eq_true, Bool.and_eq_true, beq_iff_eq, beq_iff_eq] at hp
      have hceq : c = cur := wf.title_unique c hc cur hcur hp.1.1 hp.1.2
      rw [hceq, beq_self_eq_true] at hp
      exact absurd hp.2 (by simp)
    have hcond : (truthyStr cur.catalog_number && (db.compositions.find?
        (fun c => c.composer_id == cur.composer_id &&
          c.catalog_number == cur.catalog_number && !(c.id == cur.id))).isSome)
        = false := by
      cases ht : truthyStr cur.catalog_number with
      | false => rfl
      | true =>
        have hcatne : cur.catalog_number ≠ none := by
          cases hcv : cur.catalog_number with
          | none => rw [hcv] at ht; exact Bool.noConfusion ht
          | some s => exact Option.some_ne_none s
        have hcnone : db.compositions.find?
            (fun c => c.composer_id == cur.composer_id &&
              c.catalog_number == cur.catalog_number && !(c.id == cur.id))
            = none := by
          rw [List.find?_eq_none]
          intro c hc hp
          rw [Bool.and_eq_true, Bool.and_eq_true, beq_iff_eq, beq_iff_eq] at hp
          have hceq : c = cur :=
            wf.catalog_unique c hc cur hcur hp.1.1 hp.1.2 (hp.1.2 ▸ hcatne)
          rw [hceq, beq_self_eq_true] at hp
          exact absurd hp.2 (by simp)
        rw [hcnone]
        rfl
    exact ⟨_, _, update_composition_self_ok db cur hfind htnone hcond⟩

/-- Witness for C6 in the shared store: duplicating (Bach, Concerto) fails
with the title conflict, duplicating (Bach, BWV 1060) fails with the catalog
conflict, the same title and catalog number under Handel succeed, and
resubmitting composition 1's own title and catalog on update succeeds. -/
theorem C6_composition_uniqueness_witness :
    create_composition dbW
        { composer_id := 1, catalog_number := none, title := "Concerto" } =
      .error (.conflictTitle "Concerto") ∧
    create_composition dbW
        { composer_id := 1, catalog_number := some "BWV 1060",
          title := "Mass" } = .error (.conflictCatalog "BWV 1060") ∧
    (∃ db' row, create_composition dbW
        { composer_id := 2, catalog_number := some "BWV 1060",
          title := "Concerto" } = .ok (db', row)) ∧
    (∃ db' row, update_composition dbW 1
        { composer_id := none, catalog_number := some (some "BWV 1060"),
          title := some "Concerto" } = .ok (db', row)) :=
  ⟨C6_composition_uniqueness.1 dbW
      { composer_id := 1, catalog_number := none, title := "Concerto" }
      (by decide) (by decide),
    C6_composition_uniqueness.2.1 dbW
      { composer_id := 1, catalog_number := some "BWV 1060", title := "Mass" }
      "BWV 1060" (by decide) (by decide) rfl (by decide) (by decide),
    C6_composition_uniqueness.2.2.1 dbW
      { composer_id := 2, catalog_number := some "BWV 1060",
        title := "Concerto" } (by decide) (by decide) (by decide),
    C6_composition_uniqueness.2.2.2 dbW
      { id := 1, composer_id := 1, catalog_number := some "BWV 1060",
        sort_order := some 1060, title := "Concerto" } wfW (by decide)⟩

/-- C7: deleting a composer cascades through its compositions to their
recordings: afterwards both the composition and the recording lookups return
NotFound. -/
theorem C7_delete_composer_cascades :
    ∀ db (X : Nat) (Y : Composition) (Z : Recording), WF db →
    X ∈ composerIds db → Y ∈ db.compositions → Y.composer_id = X →
    Z ∈ db.recordings → Z.composition_id = Y.id →
    ∃ db', delete_composer db X = .ok db' ∧
      read_composition db' Y.id = .error .notFoundEntity ∧
      read_recording db' Z.id = .error .notFoundEntity := by
  intro db X Y Z wf hX hY hYX hZ hZY
  obtain ⟨comp, hfindc, _, _⟩ :=
    find?_proj (fun c => c.id) db.composers X
      (show X ∈ db.composers.map (fun c => c.id) from hX)
  refine ⟨_, delete_composer_ok db X comp hfindc, ?_, ?_⟩
  · have hnone : (db.compositions.filter
        (fun c => !(c.composer_id == X))).find?
        (fun c => c.id == Y.id) = none := by
      rw [List.find?_eq_none]
      intro c hc hbeq
      rw [List.mem_filter] at hc
      have hcY : c = Y :=
        map_inj_of_nodup _ wf.compositions_nodup c hc.1 Y hY
          (by simpa using hbeq)
      rw [hcY, hYX, beq_self_eq_true] at hc
      exact absurd hc.2 (by simp)
    simp only [read_composition, hnone]
  · have hdead : Y.id ∈ (db.compositions.filter
        (fun c => c.composer_id == X)).map (fun c => c.id) := by
      refine List.mem_map_of_mem _ ?_
      rw [List.mem_filter, hYX]
      exact ⟨hY, beq_self_eq_true X⟩
    have hnone : (db.recordings.filter
        (fun r => !(((db.compositions.filter
          (fun c => c.composer_id == X)).map (fun c => c.id)).contains
            r.composition_id))).find? (fun r => r.id == Z.id) = none := by
      rw [List.find?_eq_none]
      intro r hr hbeq
      rw [List.mem_filter] at hr
      have hrZ : r = Z :=
        map_inj_of_nodup _ wf.recordings_nodup r hr.1 Z hZ
          (by simpa using hbeq)
      have hcontains : (((db.compositions.filter
          (fun c => c.composer_id == X)).map (fun c => c.id)).contains
            r.composition_id) = true := by
        rw [hrZ, hZY]
        exact List.elem_iff.mpr hdead
      rw [hcontains] at hr
      exact absurd hr.2 (by simp)
    simp only [read_recording, hnone]

/-- Witness for C7: deleting Bach from the shared store removes composition 1
and recording 1. -/
theorem C7_delete_composer_cascades_witness :
    ∃ db', delete_composer dbW 1 = .ok db' ∧
      read_composition db' 1 = .error .notFoundEntity ∧
      read_recording db' 1 = .error .notFoundEntity :=
  C7_delete_composer_cascades dbW 1
    { id := 1, composer_id := 1, catalog_number := some "BWV 1060",
      sort_order := some 1060, title := "Concerto" }
    { id := 1, composition_id := 1, year := some 1960 }
    wfW (by decide) (by decide) rfl (by decide) rfl

/-- Counterexample to C1 as stated: with artist 2 existing, setting the
artist list `[2, 2]` (all of whose elements exist) on recording 1 does not
replace the association; the handler rejects it with the NotFound branch and
an empty missing set, so no row per input element is inserted. -/
theorem C1_set_association_counterexample :
    update_recording dbW 1
        { composition_id := none, year := none, artist_ids := some [2, 2] } =
      .error (.notFoundArtists ∅) := by
  decide

/-- C1 (amended): for every duplicate-free ordered id list whose elements all
exist, the set-association operation deletes all existing rows of the owner
and inserts one row per input element whose position is its zero-based index,
and reading the association back yields the referenced entities in exactly
the input order.  Shown for replacing a recording's artists, for creating a
recording with its artists, and for replacing an album's recordings. -/
theorem C1_set_association_order :
    (∀ db rid ids, WF db → rid ∈ recordingIds db → ids.Nodup →
      (∀ i ∈ ids, i ∈ artistIds db) →
      ∃ db' r, update_recording db rid
          { composition_id := none, year := none, artist_ids := some ids } =
          .ok (db', r) ∧
        db'.recording_artists.filter (fun ra => ra.recording_id == rid) =
          (List.enum ids).map (fun ki =>
            { recording_id := rid, artist_id := ki.2, artist_order := ki.1 }) ∧
        (recordingArtists db' rid).map (fun a => a.id) = ids ∧
        (∀ a ∈ recordingArtists db' rid, a ∈ db.artists)) ∧
    (∀ db (p : RecordingCreate), WF db →
      p.composition_id ∈ compositionIds db → p.artist_ids.Nodup →
      (∀ i ∈ p.artist_ids, i ∈ artistIds db) →
      ∃ db' r, create_recording db p = .ok (db', r) ∧
        db'.recording_artists.filter (fun ra => ra.recording_id == r.id) =
          (List.enum p.artist_ids).map (fun ki =>
            { recording_id := r.id, artist_id := ki.2, artist_order := ki.1 }) ∧
        (recordingArtists db' r.id).map (fun a => a.id) = p.artist_ids ∧
        (∀ a ∈ recordingArtists db' r.id, a ∈ db.artists)) ∧
    (∀ db aid ids, WF db → aid ∈ albumIds db → ids.Nodup →
      (∀ i ∈ ids, i ∈ recordingIds db) →
      ∃ db' a, update_album db aid
          { album_type := none, discogs_url := none, goclassic_url := none
            memo := none, recording_ids := some ids, image_urls := none
            primary_image_index := none, custom_urls := none } =
          .ok (db', a) ∧
        db'.album_recordings.filter (fun ar => ar.album_id == aid) =
          (List.enum ids).map (fun ki =>
            { album_id := aid, recording_id := ki.2, recording_order := ki.1 }) ∧
        (albumRecordings db' aid).map (fun pr => pr.1.id) = ids) := by
  refine ⟨?_, ?_, ?_⟩
  · intro db rid ids wf hrid hnd hsub
    obtain ⟨cur, hfind, _, _⟩ :=
      find?_proj (fun r => r.id) db.recordings rid
        (show rid ∈ db.recordings.map (fun r => r.id) from hrid)
    have hlen : (fetchArtists db ids).length = ids.length := by
      rw [fetchArtists_length]
      exact length_filter_contains_of_nodup wf.artists_nodup hnd hsub
    refine ⟨_, _, update_recording_set_ok db rid ids cur hfind hlen, ?_, ?_, ?_⟩
    · dsimp only
      rw [List.filter_append, ra_filter_owner_of_not_owner,
        ra_filter_owner_insert, List.nil_append,
        insertRecordingArtistRows_enumFrom]
      rfl
    · dsimp only [recordingArtists]
      rw [List.filter_append, ra_filter_owner_of_not_owner,
        ra_filter_owner_insert, List.nil_append,
        List.Sorted.insertionSort_eq (insertRecordingArtistRows_sorted rid ids 0)]
      exact ra_readback_map_id db.artists rid ids 0 hsub
    · intro a ha
      dsimp only [recordingArtists] at ha
      exact filterMap_find_sub db.artists _ _ a ha
  · intro db p wf hcomp hnd hsub
    obtain ⟨c0, hfindc, _, _⟩ :=
      find?_proj (fun c => c.id) db.compositions p.composition_id
        (show p.composition_id ∈ db.compositions.map (fun c => c.id) from hcomp)
    have hcompN : (db.compositions.find?
        (fun c => c.id == p.composition_id)).isNone = false := by
      rw [hfindc]; rfl
    have hlen : (fetchArtists db p.artist_ids).length = p.artist_ids.length := by
      rw [fetchArtists_length]
      exact length_filter_contains_of_nodup wf.artists_nodup hnd hsub
    have hold : db.recording_artists.filter
        (fun ra => ra.recording_id == db.next_recording_id) = [] := by
      refine List.filter_eq_nil_iff.mpr ?_
      intro ra hra hbeq
      obtain ⟨r, hr, hrid⟩ := List.mem_map.mp (wf.ra_owner_exists ra hra)
      have : ra.recording_id = db.next_recording_id := by simpa using hbeq
      rw [this] at hrid
      exact absurd hrid (Nat.ne_of_lt (wf.recordings_lt_next r hr))
    refine ⟨_, _, create_recording_ok db p hcompN hlen, ?_, ?_, ?_⟩
    · dsimp only
      rw [List.filter_append, hold, ra_filter_owner_insert, List.nil_append,
        insertRecordingArtistRows_enumFrom]
      rfl
    · dsimp only [recordingArtists]
      rw [List.filter_append, hold, ra_filter_owner_insert, List.nil_append,
        List.Sorted.insertionSort_eq
          (insertRecordingArtistRows_sorted db.next_recording_id p.artist_ids 0)]
      exact ra_readback_map_id db.artists db.next_recording_id p.artist_ids 0 hsub
    · intro a ha
      dsimp only [recordingArtists] at ha
      exact filterMap_find_sub db.artists _ _ a ha
  · intro db aid ids wf haid hnd hsub
    obtain ⟨cur, hfind, _, _⟩ :=
      find?_proj (fun a => a.id) db.albums aid
        (show aid ∈ db.albums.map (fun a => a.id) from haid)
    have hlen : (fetchRecordings db ids).length = ids.length := by
      rw [fetchRecordings_length]
      exact length_filter_contains_of_nodup wf.recordings_nodup hnd hsub
    refine ⟨_, _, update_album_set_ok db aid ids cur hfind hlen, ?_, ?_⟩
    · dsimp only
      rw [List.filter_append, ar_filter_owner_of_not_owner,
        ar_filter_owner_insert, List.nil_append,
        insertAlbumRecordingRows_enumFrom]
      rfl
    · dsimp only [albumRecordings]
      rw [List.filter_append, ar_filter_owner_of_not_owner,
        ar_filter_owner_insert, List.nil_append,
        List.Sorted.insertionSort_eq (insertAlbumRecordingRows_sorted aid ids 0),
        List.map_map]
      exact ar_readback_map_id db.recordings aid ids 0 hsub

/-- Witness for C1 in the shared store: replacing recording 1's artists with
`[2, 1]`, creating a recording with artists `[2, 1]`, and replacing album 1's
recordings with `[1]` all succeed with the claimed association rows and
read-back order. -/
theorem C1_set_association_order_witness :
    (∃ db' r, update_recording dbW 1
        { composition_id := none, year := none, artist_ids := some [2, 1] } =
        .ok (db', r) ∧
      db'.recording_artists.filter (fun ra => ra.recording_id == 1) =
        (List.enum [2, 1]).map (fun ki =>
          { recording_id := 1, artist_id := ki.2, artist_order := ki.1 }) ∧
      (recordingArtists db' 1).map (fun a => a.id) = [2, 1] ∧
      (∀ a ∈ recordingArtists db' 1, a ∈ dbW.artists)) ∧
    (∃ db' a, update_album dbW 1
        { album_type := none, discogs_url := none, goclassic_url := none
          memo := none, recording_ids := some [1], image_urls := none
          primary_image_index := none, custom_urls := none } = .ok (db', a) ∧
      db'.album_recordings.filter (fun ar => ar.album_id == 1) =
        (List.enum [1]).map (fun ki =>
          { album_id := 1, recording_id := ki.2, recording_order := ki.1 }) ∧
      (albumRecordings db' 1).map (fun pr => pr.1.id) = [1]) :=
  ⟨C1_set_association_order.1 dbW 1 [2, 1] wfW (by decide) (by decide)
      (by decide),
    C1_set_association_order.2.2 dbW 1 [1] wfW (by decide) (by decide)
      (by decide)⟩

/-- C2: applying the same set-association payload twice in succession leaves
exactly the stored state of the first application, for recording↔artist and
album↔recording alike: the second run deletes precisely the rows the first
run inserted and reinserts them identically, and the row replacement of the
owner is the identity. -/
theorem C2_set_association_idempotent :
    (∀ db rid ids, WF db → rid ∈ recordingIds db → ids.Nodup →
      (∀ i ∈ ids, i ∈ artistIds db) →
      ∃ db₁ r₁, update_recording db rid
          { composition_id := none, year := none, artist_ids := some ids } =
          .ok (db₁, r₁) ∧
        update_recording db₁ rid
          { composition_id := none, year := none, artist_ids := some ids } =
          .ok (db₁, r₁)) ∧
    (∀ db aid ids, WF db → aid ∈ albumIds db → ids.Nodup →
      (∀ i ∈ ids, i ∈ recordingIds db) →
      ∃ db₁ a₁, update_album db aid
          { album_type := none, discogs_url := none, goclassic_url := none
            memo := none, recording_ids := some ids, image_urls := none
            primary_image_index := none, custom_urls := none } =
          .ok (db₁, a₁) ∧
        update_album db₁ aid
          { album_type := none, discogs_url := none, goclassic_url := none
            memo := none, recording_ids := some ids, image_urls := none
            primary_image_index := none, custom_urls := none } =
          .ok (db₁, a₁)) := by
  constructor
  · intro db rid ids wf hrid hnd hsub
    obtain ⟨cur, hfind, _, _⟩ :=
      find?_proj (fun r => r.id) db.recordings rid
        (show rid ∈ db.recordings.map (fun r => r.id) from hrid)
    have hlen : (fetchArtists db ids).length = ids.length := by
      rw [fetchArtists_length]
      exact length_filter_contains_of_nodup wf.artists_nodup hnd hsub
    have hrec_eq : db.recordings.map (fun r => if r.id == rid then cur else r)
        = db.recordings :=
      map_replace_self (fun r : Recording => r.id) hfind wf.recordings_nodup
    refine ⟨{ db with recording_artists :=
        (db.recording_artists.filter (fun ra => !(ra.recording_id == rid))) ++
          insertRecordingArtistRows rid ids 0 }, cur, ?_, ?_⟩
    · rw [update_recording_set_ok db rid ids cur hfind hlen, hrec_eq]
    · set db₂ : DB := { db with recording_artists :=
        (db.recording_artists.filter (fun ra => !(ra.recording_id == rid))) ++
          insertRecordingArtistRows rid ids 0 } with hdb₂
      have hfind₂ : db₂.recordings.find? (fun r => r.id == rid) = some cur := hfind
      have hlen₂ : (fetchArtists db₂ ids).length = ids.length := hlen
      have e1 : db₂.recordings.map (fun r => if r.id == rid then cur else r)
          = db₂.recordings := hrec_eq
      have e2 : (db₂.recording_artists.filter
            (fun ra => !(ra.recording_id == rid))) ++
            insertRecordingArtistRows rid ids 0 = db₂.recording_artists := by
        show ((db.recording_artists.filter (fun ra => !(ra.recording_id == rid))
            ++ insertRecordingArtistRows rid ids 0).filter
              (fun ra => !(ra.recording_id == rid))) ++
            insertRecordingArtistRows rid ids 0 = _
        rw [List.filter_append, ra_filter_not_owner_idem,
          ra_filter_not_owner_insert, List.append_nil]
      rw [update_recording_set_ok db₂ rid ids cur hfind₂ hlen₂, e1, e2]
  · intro db aid ids wf haid hnd hsub
    obtain ⟨cur, hfind, _, _⟩ :=
      find?_proj (fun a => a.id) db.albums aid
        (show aid ∈ db.albums.map (fun a => a.id) from haid)
    have hlen : (fetchRecordings db ids).length = ids.length := by
      rw [fetchRecordings_length]
      exact length_filter_contains_of_nodup wf.recordings_nodup hnd hsub
    have halb_eq : db.albums.map (fun a => if a.id == aid then cur else a)
        = db.albums :=
      map_replace_self (fun a : Album => a.id) hfind wf.albums_nodup
    refine ⟨{ db with album_recordings :=
        (db.album_recordings.filter (fun ar => !(ar.album_id == aid))) ++
          insertAlbumRecordingRows aid ids 0 }, cur, ?_, ?_⟩
    · rw [update_album_set_ok db aid ids cur hfind hlen, halb_eq]
    · set db₂ : DB := { db with album_recordings :=
        (db.album_recordings.filter (fun ar => !(ar.album_id == aid))) ++
          insertAlbumRecordingRows aid ids 0 } with hdb₂
      have hfind₂ : db₂.albums.find? (fun a => a.id == aid) = some cur := hfind
      have hlen₂ : (fetchRecordings db₂ ids).length = ids.length := hlen
      have e1 : db₂.albums.map (fun a => if a.id == aid then cur else a)
          = db₂.albums := halb_eq
      have e2 : (db₂.album_recordings.filter
            (fun ar => !(ar.album_id == aid))) ++
            insertAlbumRecordingRows aid ids 0 = db₂.album_recordings := by
        show ((db.album_recordings.filter (fun ar => !(ar.album_id == aid))
            ++ insertAlbumRecordingRows aid ids 0).filter
              (fun ar => !(ar.album_id == aid))) ++
            insertAlbumRecordingRows aid ids 0 = _
        rw [List.filter_append, ar_filter_not_owner_idem,
          ar_filter_not_owner_insert, List.append_nil]
      rw [update_album_set_ok db₂ aid ids cur hfind₂ hlen₂, e1, e2]

/-- Witness for C2 in the shared store: replacing recording 1's artists with
`[2, 1]` twice, and album 1's recordings with `[1]` twice, are idempotent. -/
theorem C2_set_association_idempotent_witness :
    (∃ db₁ r₁, update_recording dbW 1
        { composition_id := none, year := none, artist_ids := some [2, 1] } =
        .ok (db₁, r₁) ∧
      update_recording db₁ 1
        { composition_id := none, year := none, artist_ids := some [2, 1] } =
        .ok (db₁, r₁)) ∧
    (∃ db₁ a₁, update_album dbW 1
        { album_type := none, discogs_url := none, goclassic_url := none
          memo := none, recording_ids := some [1], image_urls := none
          primary_image_index := none, custom_urls := none } = .ok (db₁, a₁) ∧
      update_album db₁ 1
        { album_type := none, discogs_url := none, goclassic_url := none
          memo := none, recording_ids := some [1], image_urls := none
          primary_image_index := none, custom_urls := none } = .ok (db₁, a₁)) :=
  ⟨C2_set_association_idempotent.1 dbW 1 [2, 1] wfW (by decide) (by decide)
      (by decide),
    C2_set_association_idempotent.2 dbW 1 [1] wfW (by decide) (by decide)
      (by decide)⟩

end CatalogApi
